import Mathlib

/-!
Verification of the ANT message codec, stream parser, channel registry and
search processor of the `antrs` library, against a shallow embedding of
`src/message.rs`, `src/message/reader.rs`, `src/node.rs` and `src/device.rs`.

Bytes are modelled as `Nat`; `u8`/`u16` overflow is made explicit with `% 256`
and `% 65536` where the Rust arithmetic wraps.  Fallible Rust code returns
`Result`, modelled with explicit outcome types; a Rust panic (out-of-bounds
index or `Option::unwrap` on `None`) is modelled as a dedicated `panic`
outcome.
-/

namespace Antrs

/-- Sync byte starting every ANT frame (`SYNC` in `message.rs`). -/
def SYNC : Nat := 0xa4

/-- XOR of a list of bytes.  The checksum loops in `Message::encode` and
`Message::decode` fold XOR over the frame bytes; the fold direction is
irrelevant because XOR is associative and commutative with unit 0. -/
def xorList : List Nat → Nat
  | [] => 0
  | b :: rest => b ^^^ xorList rest

/-- `MessageID` enum of `message.rs`. -/
inductive MessageID where
  | ChannelEvent
  | ChannelResponseEvent
  | AssignChannel
  | SetChannelPeriod
  | SetChannelSearchTimeout
  | SetChannelRFFrequency
  | SetNetworkKey
  | ResetSystem
  | OpenChannel
  | CloseChannel
  | RequestMessage
  | BroadcastData
  | AcknowledgedData
  | SetChannelID
  | Capabilities
  | SetChannelLowPrioritySearchTimeout
  | EnableExtendedMessages
  | LibConfig
  | StartupMessage
  deriving DecidableEq, Repr

/-- `u8` discriminant of `MessageID` (`IntoPrimitive`). -/
def MessageID.toByte : MessageID → Nat
  | .ChannelEvent => 0x01
  | .ChannelResponseEvent => 0x40
  | .AssignChannel => 0x42
  | .SetChannelPeriod => 0x43
  | .SetChannelSearchTimeout => 0x44
  | .SetChannelRFFrequency => 0x45
  | .SetNetworkKey => 0x46
  | .ResetSystem => 0x4a
  | .OpenChannel => 0x4b
  | .CloseChannel => 0x4c
  | .RequestMessage => 0x4d
  | .BroadcastData => 0x4e
  | .AcknowledgedData => 0x4f
  | .SetChannelID => 0x51
  | .Capabilities => 0x54
  | .SetChannelLowPrioritySearchTimeout => 0x63
  | .EnableExtendedMessages => 0x66
  | .LibConfig => 0x6e
  | .StartupMessage => 0x6f

/-- `MessageID::try_from` (`TryFromPrimitive`): exhaustive byte → variant map. -/
def MessageID.fromByte : Nat → Option MessageID
  | 0x01 => some .ChannelEvent
  | 0x40 => some .ChannelResponseEvent
  | 0x42 => some .AssignChannel
  | 0x43 => some .SetChannelPeriod
  | 0x44 => some .SetChannelSearchTimeout
  | 0x45 => some .SetChannelRFFrequency
  | 0x46 => some .SetNetworkKey
  | 0x4a => some .ResetSystem
  | 0x4b => some .OpenChannel
  | 0x4c => some .CloseChannel
  | 0x4d => some .RequestMessage
  | 0x4e => some .BroadcastData
  | 0x4f => some .AcknowledgedData
  | 0x51 => some .SetChannelID
  | 0x54 => some .Capabilities
  | 0x63 => some .SetChannelLowPrioritySearchTimeout
  | 0x66 => some .EnableExtendedMessages
  | 0x6e => some .LibConfig
  | 0x6f => some .StartupMessage
  | _ => none

/-- `MessageCode` enum of `message.rs`. -/
inductive MessageCode where
  | ResponseNoError
  | EventRXSearchTimeout
  | EventRXFail
  | EventTX
  | EventTransferRXFailed
  | EventTransferTXCompleted
  | EventTransferTXFailed
  | EventChannelClosed
  | EventRXFailGoToSearch
  | EventChannelCollision
  | EventTransferTXStart
  | EventTransferNextDataBlock
  | ChannelInWrongState
  | ChannelNotOpened
  | ChannelIDNotSet
  | CloseAllChannels
  | TransferInProgress
  | TransferSequenceNumberError
  | TransferInError
  | MessageSizeExceedsLimit
  | InvalidMessage
  | InvalidNetworkNumber
  | InvalidListID
  | InvalidScanTXChannel
  | InvalidParameterProvided
  | EventSerialQueOverflow
  | EventQueOverflow
  | EncryptNegotiationSuccess
  | EncryptNegotiationFail
  | NVMFullError
  | NVMWriteError
  | USBStringWriteFail
  | MesgSerialErrorID
  deriving DecidableEq, Repr

/-- `u8` discriminant of `MessageCode`. -/
def MessageCode.toByte : MessageCode → Nat
  | .ResponseNoError => 0
  | .EventRXSearchTimeout => 1
  | .EventRXFail => 2
  | .EventTX => 3
  | .EventTransferRXFailed => 4
  | .EventTransferTXCompleted => 5
  | .EventTransferTXFailed => 6
  | .EventChannelClosed => 7
  | .EventRXFailGoToSearch => 8
  | .EventChannelCollision => 9
  | .EventTransferTXStart => 10
  | .EventTransferNextDataBlock => 17
  | .ChannelInWrongState => 21
  | .ChannelNotOpened => 22
  | .ChannelIDNotSet => 24
  | .CloseAllChannels => 25
  | .TransferInProgress => 31
  | .TransferSequenceNumberError => 32
  | .TransferInError => 33
  | .MessageSizeExceedsLimit => 39
  | .InvalidMessage => 40
  | .InvalidNetworkNumber => 41
  | .InvalidListID => 48
  | .InvalidScanTXChannel => 49
  | .InvalidParameterProvided => 51
  | .EventSerialQueOverflow => 52
  | .EventQueOverflow => 53
  | .EncryptNegotiationSuccess => 56
  | .EncryptNegotiationFail => 57
  | .NVMFullError => 64
  | .NVMWriteError => 65
  | .USBStringWriteFail => 112
  | .MesgSerialErrorID => 174

/-- `MessageCode::try_from` (`TryFromPrimitive`). -/
def MessageCode.fromByte : Nat → Option MessageCode
  | 0 => some .ResponseNoError
  | 1 => some .EventRXSearchTimeout
  | 2 => some .EventRXFail
  | 3 => some .EventTX
  | 4 => some .EventTransferRXFailed
  | 5 => some .EventTransferTXCompleted
  | 6 => some .EventTransferTXFailed
  | 7 => some .EventChannelClosed
  | 8 => some .EventRXFailGoToSearch
  | 9 => some .EventChannelCollision
  | 10 => some .EventTransferTXStart
  | 17 => some .EventTransferNextDataBlock
  | 21 => some .ChannelInWrongState
  | 22 => some .ChannelNotOpened
  | 24 => some .ChannelIDNotSet
  | 25 => some .CloseAllChannels
  | 31 => some .TransferInProgress
  | 32 => some .TransferSequenceNumberError
  | 33 => some .TransferInError
  | 39 => some .MessageSizeExceedsLimit
  | 40 => some .InvalidMessage
  | 41 => some .InvalidNetworkNumber
  | 48 => some .InvalidListID
  | 49 => some .InvalidScanTXChannel
  | 51 => some .InvalidParameterProvided
  | 52 => some .EventSerialQueOverflow
  | 53 => some .EventQueOverflow
  | 56 => some .EncryptNegotiationSuccess
  | 57 => some .EncryptNegotiationFail
  | 64 => some .NVMFullError
  | 65 => some .NVMWriteError
  | 112 => some .USBStringWriteFail
  | 174 => some .MesgSerialErrorID
  | _ => none

/-- `ChannelType` enum of `message.rs`. -/
inductive ChannelType where
  | Receive
  | Transmit
  | SharedBidirectionalReceive
  | SharedBidirectionalTransmit
  | ReceiveOnly
  | TransmitOnly
  deriving DecidableEq, Repr

/-- `u8` discriminant of `ChannelType`. -/
def ChannelType.toByte : ChannelType → Nat
  | .Receive => 0x00
  | .Transmit => 0x10
  | .SharedBidirectionalReceive => 0x20
  | .SharedBidirectionalTransmit => 0x30
  | .ReceiveOnly => 0x40
  | .TransmitOnly => 0x50

/-- `ChannelType::try_from` (`TryFromPrimitive`). -/
def ChannelType.fromByte : Nat → Option ChannelType
  | 0x00 => some .Receive
  | 0x10 => some .Transmit
  | 0x20 => some .SharedBidirectionalReceive
  | 0x30 => some .SharedBidirectionalTransmit
  | 0x40 => some .ReceiveOnly
  | 0x50 => some .TransmitOnly
  | _ => none

/-- A Rust `[u8; 8]` array, as eight explicit byte fields. -/
structure Bytes8 where
  b0 : Nat
  b1 : Nat
  b2 : Nat
  b3 : Nat
  b4 : Nat
  b5 : Nat
  b6 : Nat
  b7 : Nat
  deriving DecidableEq, Repr

/-- The eight bytes, in order, as a list (matches `data.iter()` in the source). -/
def Bytes8.toList (b : Bytes8) : List Nat :=
  [b.b0, b.b1, b.b2, b.b3, b.b4, b.b5, b.b6, b.b7]

/-- `AssignChannelData`.  Bitflag fields (`ChannelExtendedAssignment`) are kept
as the raw byte, matching `from_bits_retain` / `.bits()` which preserve all
bits including undeclared ones. -/
structure AssignChannelData where
  channel : Nat
  channel_type : ChannelType
  network : Nat
  extended_assignment : Nat
  deriving DecidableEq, Repr

/-- `ChannelID` of `message.rs`. -/
structure ChannelID where
  device_number : Nat
  device_type : Nat
  transmission_type : Nat
  deriving DecidableEq, Repr

/-- `RSSI` of `message.rs`. -/
structure RSSI where
  measurement_type : Nat
  rssi : Nat
  threshold_config : Nat
  deriving DecidableEq, Repr

/-- `DataPayload` of `message.rs`. -/
structure DataPayload where
  channel : Nat
  data : Option Bytes8
  channel_id : Option ChannelID
  rssi : Option RSSI
  rx_timestamp : Option Nat
  deriving DecidableEq, Repr

/-- `CapabilitiesData`.  All bitflag option sets kept as raw bytes
(`from_bits_retain` semantics). -/
structure CapabilitiesData where
  max_channels : Nat
  max_networks : Nat
  standard_options : Nat
  advanced_options : Nat
  advanced_options_2 : Nat
  max_sensrcore_channels : Nat
  advanced_options_3 : Nat
  advanced_options_4 : Nat
  deriving DecidableEq, Repr

/-- `ChannelResponseEventData` of `message.rs`. -/
structure ChannelResponseEventData where
  channel : Nat
  message_id : MessageID
  message_code : MessageCode
  deriving DecidableEq, Repr

/-- `CloseChannelData` of `message.rs`. -/
structure CloseChannelData where
  channel : Nat
  deriving DecidableEq, Repr

/-- `EnableExtendedMessagesData` of `message.rs`. -/
structure EnableExtendedMessagesData where
  enabled : Nat
  deriving DecidableEq, Repr

/-- `LibConfigData`; the `ExtendedDataFlag` bitflags kept as the raw byte. -/
structure LibConfigData where
  config : Nat
  deriving DecidableEq, Repr

/-- `OpenChannelData` of `message.rs`. -/
structure OpenChannelData where
  channel : Nat
  deriving DecidableEq, Repr

/-- `RequestMessageData` of `message.rs`. -/
structure RequestMessageData where
  channel : Nat
  message_id : MessageID
  deriving DecidableEq, Repr

/-- `SetChannelIDData` of `message.rs`. -/
structure SetChannelIDData where
  channel : Nat
  device : Nat
  pairing : Bool
  device_type : Nat
  transmission_type : Nat
  deriving DecidableEq, Repr

/-- `SetChannelLowPrioritySearchTimeoutData` of `message.rs`. -/
structure SetChannelLowPrioritySearchTimeoutData where
  channel : Nat
  timeout : Nat
  deriving DecidableEq, Repr

/-- `SetChannelPeriodData` of `message.rs`. -/
structure SetChannelPeriodData where
  channel : Nat
  period : Nat
  deriving DecidableEq, Repr

/-- `SetChannelRFFrequencyData` of `message.rs`. -/
structure SetChannelRFFrequencyData where
  channel : Nat
  frequency : Nat
  deriving DecidableEq, Repr

/-- `SetChannelSearchTimeoutData` of `message.rs`. -/
structure SetChannelSearchTimeoutData where
  channel : Nat
  timeout : Nat
  deriving DecidableEq, Repr

/-- `SetNetworkKeyData` of `message.rs`. -/
structure SetNetworkKeyData where
  network : Nat
  key : Bytes8
  deriving DecidableEq, Repr

/-- `StartupMessageData` of `message.rs`. -/
structure StartupMessageData where
  reason : Nat
  deriving DecidableEq, Repr

/-- Decode `Error` enum of `message.rs`. -/
inductive Error where
  | InsufficientData
  | InvalidChannelType (b : Nat)
  | InvalidChecksum
  | InvalidMessageCode (b : Nat)
  | InvalidMessageID (b : Nat)
  | InvalidSyncByte
  deriving DecidableEq, Repr

/-- The `Message` enum of `message.rs`. -/
inductive Message where
  | AcknowledgedData (base : DataPayload)
  | AssignChannel (base : AssignChannelData)
  | BroadcastData (base : DataPayload)
  | Capabilities (base : CapabilitiesData)
  | ChannelResponseEvent (base : ChannelResponseEventData)
  | CloseChannel (base : CloseChannelData)
  | EnableExtendedMessages (base : EnableExtendedMessagesData)
  | LibConfig (base : LibConfigData)
  | OpenChannel (base : OpenChannelData)
  | RequestMessage (base : RequestMessageData)
  | ResetSystem
  | SetChannelID (base : SetChannelIDData)
  | SetChannelLowPrioritySearchTimeout (base : SetChannelLowPrioritySearchTimeoutData)
  | SetChannelPeriod (base : SetChannelPeriodData)
  | SetChannelRFFrequency (base : SetChannelRFFrequencyData)
  | SetChannelSearchTimeout (base : SetChannelSearchTimeoutData)
  | SetNetworkKey (base : SetNetworkKeyData)
  | StartupMessage (base : StartupMessageData)
  deriving DecidableEq, Repr

/-- `DataPayload::encode`: the source calls `self.data.unwrap()` (with a TODO
comment admitting the panic), so the result is `none` — a panic — when
`data` is `None`; the extended fields are never emitted. -/
def DataPayload.encodeBody (p : DataPayload) (message_id : MessageID) : Option (List Nat) :=
  match p.data with
  | none => none
  | some d => some ([SYNC, 9, message_id.toByte, p.channel] ++ d.toList)

/-- `AssignChannelData::encode` (body, before checksum). -/
def AssignChannelData.encodeBody (x : AssignChannelData) : List Nat :=
  [SYNC, 4, MessageID.AssignChannel.toByte, x.channel, x.channel_type.toByte, x.network,
    x.extended_assignment]

/-- `CapabilitiesData::encode` (body, before checksum). -/
def CapabilitiesData.encodeBody (x : CapabilitiesData) : List Nat :=
  [SYNC, 8, MessageID.Capabilities.toByte, x.max_channels, x.max_networks, x.standard_options,
    x.advanced_options, x.advanced_options_2, x.max_sensrcore_channels, x.advanced_options_3,
    x.advanced_options_4]

/-- `ChannelResponseEventData::encode` (body, before checksum). -/
def ChannelResponseEventData.encodeBody (x : ChannelResponseEventData) : List Nat :=
  [SYNC, 3, MessageID.ChannelResponseEvent.toByte, x.channel, x.message_id.toByte,
    x.message_code.toByte]

/-- `CloseChannelData::encode` (body, before checksum). -/
def CloseChannelData.encodeBody (x : CloseChannelData) : List Nat :=
  [SYNC, 1, MessageID.CloseChannel.toByte, x.channel]

/-- `EnableExtendedMessagesData::encode` (body, before checksum). -/
def EnableExtendedMessagesData.encodeBody (x : EnableExtendedMessagesData) : List Nat :=
  [SYNC, 2, MessageID.EnableExtendedMessages.toByte, 0, x.enabled]

/-- `LibConfigData::encode` (body, before checksum). -/
def LibConfigData.encodeBody (x : LibConfigData) : List Nat :=
  [SYNC, 2, MessageID.LibConfig.toByte, 0, x.config]

/-- `OpenChannelData::encode` (body, before checksum). -/
def OpenChannelData.encodeBody (x : OpenChannelData) : List Nat :=
  [SYNC, 1, MessageID.OpenChannel.toByte, x.channel]

/-- `RequestMessageData::encode` (body, before checksum). -/
def RequestMessageData.encodeBody (x : RequestMessageData) : List Nat :=
  [SYNC, 2, MessageID.RequestMessage.toByte, x.channel, x.message_id.toByte]

/-- `ResetSystem::encode` (body, before checksum). -/
def resetSystemEncodeBody : List Nat :=
  [SYNC, 1, MessageID.ResetSystem.toByte, 0]

/-- `SetChannelIDData::encode` (body, before checksum).  `device.to_le_bytes()`
is `[device % 256, device / 256 % 256]` for a `u16`; the device-type byte
carries the pairing flag in bit 7 and the type masked to 7 bits. -/
def SetChannelIDData.encodeBody (x : SetChannelIDData) : List Nat :=
  [SYNC, 5, MessageID.SetChannelID.toByte, x.channel, x.device % 256, x.device / 256 % 256,
    (if x.pairing then 0x80 else 0x00) ||| (x.device_type &&& 0x7f), x.transmission_type]

/-- `SetChannelLowPrioritySearchTimeoutData::encode` (body, before checksum). -/
def SetChannelLowPrioritySearchTimeoutData.encodeBody
    (x : SetChannelLowPrioritySearchTimeoutData) : List Nat :=
  [SYNC, 2, MessageID.SetChannelLowPrioritySearchTimeout.toByte, x.channel, x.timeout]

/-- `SetChannelPeriodData::encode` (body, before checksum). -/
def SetChannelPeriodData.encodeBody (x : SetChannelPeriodData) : List Nat :=
  [SYNC, 3, MessageID.SetChannelPeriod.toByte, x.channel, x.period % 256, x.period / 256 % 256]

/-- `SetChannelRFFrequencyData::encode` (body, before checksum). -/
def SetChannelRFFrequencyData.encodeBody (x : SetChannelRFFrequencyData) : List Nat :=
  [SYNC, 2, MessageID.SetChannelRFFrequency.toByte, x.channel, x.frequency]

/-- `SetChannelSearchTimeoutData::encode` (body, before checksum). -/
def SetChannelSearchTimeoutData.encodeBody (x : SetChannelSearchTimeoutData) : List Nat :=
  [SYNC, 2, MessageID.SetChannelSearchTimeout.toByte, x.channel, x.timeout]

/-- `SetNetworkKeyData::encode` (body, before checksum). -/
def SetNetworkKeyData.encodeBody (x : SetNetworkKeyData) : List Nat :=
  [SYNC, 9, MessageID.SetNetworkKey.toByte, x.network] ++ x.key.toList

/-- `StartupMessageData::encode` (body, before checksum). -/
def StartupMessageData.encodeBody (x : StartupMessageData) : List Nat :=
  [SYNC, 1, MessageID.StartupMessage.toByte, x.reason]

/-- The body produced by the per-variant `encode` calls inside
`Message::encode`, before the checksum is appended.  `none` models the panic
of `DataPayload::encode` on a missing 8-byte payload. -/
def Message.encodeBody : Message → Option (List Nat)
  | .AcknowledgedData base => base.encodeBody MessageID.AcknowledgedData
  | .AssignChannel base => some base.encodeBody
  | .BroadcastData base => base.encodeBody MessageID.BroadcastData
  | .Capabilities base => some base.encodeBody
  | .ChannelResponseEvent base => some base.encodeBody
  | .CloseChannel base => some base.encodeBody
  | .EnableExtendedMessages base => some base.encodeBody
  | .LibConfig base => some base.encodeBody
  | .OpenChannel base => some base.encodeBody
  | .RequestMessage base => some base.encodeBody
  | .ResetSystem => some resetSystemEncodeBody
  | .SetChannelID base => some base.encodeBody
  | .SetChannelLowPrioritySearchTimeout base => some base.encodeBody
  | .SetChannelPeriod base => some base.encodeBody
  | .SetChannelRFFrequency base => some base.encodeBody
  | .SetChannelSearchTimeout base => some base.encodeBody
  | .SetNetworkKey base => some base.encodeBody
  | .StartupMessage base => some base.encodeBody

/-- The checksum loop at the end of `Message::encode`: XOR all encoded bytes
and push the result. -/
def withChecksum (body : List Nat) : List Nat :=
  body ++ [xorList body]

/-- `Message::encode`: encode the variant body, then append the XOR checksum
of all produced bytes.  `none` models a panic. -/
def Message.encode (m : Message) : Option (List Nat) :=
  (m.encodeBody).map withChecksum

/-- Outcome of `Message::decode` on a byte slice: a decoded message with its
consumed length, a decode `Error`, or a Rust panic (out-of-bounds index). -/
inductive DecodeOutcome where
  | panic
  | error (e : Error)
  | ok (m : Message) (len : Nat)
  deriving DecidableEq, Repr

/-- Read `data[i]`; an out-of-bounds read is a Rust panic. -/
def pread (data : List Nat) (i : Nat) (k : Nat → DecodeOutcome) : DecodeOutcome :=
  match data.get? i with
  | none => .panic
  | some v => k v

/-- Read the eight bytes `data[i..i+8]` into a `[u8; 8]`, mirroring the copy
loop in the `BroadcastData`/`AcknowledgedData` arm and in `SetNetworkKey`. -/
def pread8 (data : List Nat) (i : Nat) (k : Bytes8 → DecodeOutcome) : DecodeOutcome :=
  pread data i fun d0 =>
  pread data (i + 1) fun d1 =>
  pread data (i + 2) fun d2 =>
  pread data (i + 3) fun d3 =>
  pread data (i + 4) fun d4 =>
  pread data (i + 5) fun d5 =>
  pread data (i + 6) fun d6 =>
  pread data (i + 7) fun d7 =>
  k ⟨d0, d1, d2, d3, d4, d5, d6, d7⟩

/-- Timestamp stage of the extended-data decoding: at offset `base`, if
`base + 2 <= data_len + 3` and flag bit `0x20` is set, read a
little-endian `u16` rx timestamp. -/
def decodeDataTs (data : List Nat) (data_len flag base : Nat)
    (k : Option Nat → DecodeOutcome) : DecodeOutcome :=
  if base + 2 ≤ data_len + 3 ∧ flag &&& 0x20 = 0x20 then
    pread data base fun lo =>
    pread data (base + 1) fun hi =>
    k (some (lo + 256 * hi))
  else
    k none

/-- RSSI stage of the extended-data decoding: at offset `base`, if
`base + 3 <= data_len + 3` and flag bit `0x40` is set, read the RSSI triple
and skip one pad byte (`base += 4`, per the source comment about the
undocumented padding byte after RSSI). -/
def decodeDataRssi (data : List Nat) (data_len flag base : Nat)
    (k : Option RSSI → Option Nat → DecodeOutcome) : DecodeOutcome :=
  if base + 3 ≤ data_len + 3 ∧ flag &&& 0x40 = 0x40 then
    pread data base fun mt =>
    pread data (base + 1) fun rv =>
    pread data (base + 2) fun tc =>
    decodeDataTs data data_len flag (base + 4) fun ts =>
    k (some ⟨mt, rv, tc⟩) ts
  else
    decodeDataTs data data_len flag base fun ts =>
    k none ts

/-- Channel-id stage of the extended-data decoding, starting at `base = 13`:
if `data_len >= 14` and flag bit `0x80` is set, read the 4-byte channel id
(device number little-endian) and advance `base` by 4. -/
def decodeDataExt (data : List Nat) (data_len flag : Nat)
    (k : Option ChannelID → Option RSSI → Option Nat → DecodeOutcome) : DecodeOutcome :=
  if 14 ≤ data_len ∧ flag &&& 0x80 = 0x80 then
    pread data 13 fun lo =>
    pread data 14 fun hi =>
    pread data 15 fun dt =>
    pread data 16 fun tt =>
    decodeDataRssi data data_len flag 17 fun rssi ts =>
    k (some ⟨lo + 256 * hi, dt, tt⟩) rssi ts
  else
    decodeDataRssi data data_len flag 13 fun rssi ts =>
    k none rssi ts

/-- The `BroadcastData` / `AcknowledgedData` arm of `Message::decode`:
with `data_len >= 9` read the 8-byte payload, the flag byte at index 12 and
the optional trailers; otherwise all optional parts stay `None`. -/
def decodeDataBody (data : List Nat) (data_len message_len : Nat)
    (mk : DataPayload → Message) : DecodeOutcome :=
  if 9 ≤ data_len then
    pread8 data 4 fun decoded =>
    pread data 12 fun flag =>
    decodeDataExt data data_len flag fun channel_id rssi ts =>
    .ok (mk ⟨data.getD 3 0, some decoded, channel_id, rssi, ts⟩) message_len
  else
    .ok (mk ⟨data.getD 3 0, none, none, none, none⟩) message_len

/-- The per-variant `match id` block at the end of `Message::decode`, reached
once the header, length and checksum checks have passed. -/
def decodeArms (id : MessageID) (data : List Nat) (data_len message_len : Nat) :
    DecodeOutcome :=
  match id with
  | .ChannelEvent => .error (.InvalidMessageID MessageID.ChannelEvent.toByte)
          | .AssignChannel =>
            pread data 4 fun ct =>
            match ChannelType.fromByte ct with
            | none => .error (.InvalidChannelType ct)
            | some channel_type =>
              pread data 6 fun ext =>
              pread data 5 fun network =>
              .ok (.AssignChannel ⟨data.getD 3 0, channel_type, network, ext⟩) message_len
          | .BroadcastData => decodeDataBody data data_len message_len Message.BroadcastData
          | .AcknowledgedData => decodeDataBody data data_len message_len Message.AcknowledgedData
          | .Capabilities =>
            pread data 5 fun so =>
            pread data 6 fun ao =>
            pread data 7 fun ao2 =>
            pread data 9 fun ao3 =>
            let finish := fun (ao4 : Nat) =>
              pread data 8 fun msc =>
              .ok (.Capabilities ⟨data.getD 3 0, data.getD 4 0, so, ao, ao2, msc, ao3, ao4⟩)
                message_len
            if data_len = 8 then pread data 10 fun ao4 => finish ao4 else finish 0
          | .ChannelResponseEvent =>
            pread data 4 fun mid =>
            match MessageID.fromByte mid with
            | none => .error (.InvalidMessageID mid)
            | some message_id =>
              pread data 5 fun mc =>
              match MessageCode.fromByte mc with
              | none => .error (.InvalidMessageCode mc)
              | some message_code =>
                .ok (.ChannelResponseEvent ⟨data.getD 3 0, message_id, message_code⟩) message_len
          | .CloseChannel => .ok (.CloseChannel ⟨data.getD 3 0⟩) message_len
          | .EnableExtendedMessages =>
            pread data 4 fun enabled =>
            .ok (.EnableExtendedMessages ⟨enabled⟩) message_len
          | .LibConfig =>
            pread data 4 fun config =>
            .ok (.LibConfig ⟨config⟩) message_len
          | .OpenChannel => .ok (.OpenChannel ⟨data.getD 3 0⟩) message_len
          | .RequestMessage =>
            pread data 4 fun mid =>
            match MessageID.fromByte mid with
            | none => .error (.InvalidMessageID mid)
            | some message_id =>
              .ok (.RequestMessage ⟨data.getD 3 0, message_id⟩) message_len
          | .ResetSystem => .ok .ResetSystem message_len
          | .SetChannelID =>
            pread data 4 fun lo =>
            pread data 5 fun hi =>
            pread data 6 fun dtb =>
            pread data 7 fun tt =>
            .ok (.SetChannelID
              ⟨data.getD 3 0, lo + 256 * hi, dtb &&& 0x80 == 0x80, dtb &&& 0x7f, tt⟩) message_len
          | .SetChannelLowPrioritySearchTimeout =>
            pread data 4 fun timeout =>
            .ok (.SetChannelLowPrioritySearchTimeout ⟨data.getD 3 0, timeout⟩) message_len
          | .SetChannelPeriod =>
            pread data 4 fun lo =>
            pread data 5 fun hi =>
            .ok (.SetChannelPeriod ⟨data.getD 3 0, lo + 256 * hi⟩) message_len
          | .SetChannelRFFrequency =>
            pread data 4 fun frequency =>
            .ok (.SetChannelRFFrequency ⟨data.getD 3 0, frequency⟩) message_len
          | .SetChannelSearchTimeout =>
            pread data 4 fun timeout =>
            .ok (.SetChannelSearchTimeout ⟨data.getD 3 0, timeout⟩) message_len
          | .SetNetworkKey =>
            pread8 data 4 fun key =>
            .ok (.SetNetworkKey ⟨data.getD 3 0, key⟩) message_len
          | .StartupMessage => .ok (.StartupMessage ⟨data.getD 3 0⟩) message_len

/-- `Message::decode` of `message.rs`.

The `u8` sum `data_len + 4` wraps (release-mode semantics), hence the
explicit `% 256`.  Indices 0–3 are guarded by the initial length check and
are read with `getD`; all other indices can be out of bounds and are read
with `pread`, whose `none` case is a panic. -/
def Message.decode (data : List Nat) : DecodeOutcome :=
  if data.length < 4 then .error .InsufficientData
  else if data.getD 0 0 ≠ SYNC then .error .InvalidSyncByte
  else
    let data_len := data.getD 1 0
    let message_len := (data_len + 4) % 256
    if data.length < message_len then .error .InsufficientData
    else
      match MessageID.fromByte (data.getD 2 0) with
      | none => .error (.InvalidMessageID (data.getD 2 0))
      | some id =>
        if xorList (data.take message_len) ≠ 0 then .error .InvalidChecksum
        else decodeArms id data data_len message_len

example : Message.decode [0xa4, 0x09, 0x4e, 0x00, 0x04, 0x1a, 0x2e, 0xd9, 0xe4, 0xda, 0x10,
    0x47, 0x63]
    = .ok (.BroadcastData ⟨0, some ⟨0x04, 0x1a, 0x2e, 0xd9, 0xe4, 0xda, 0x10, 0x47⟩,
        none, none, none⟩) 13 := by decide

example : Message.decode [0xa4, 0x00, 0x4e, 0xea]
    = .ok (.BroadcastData ⟨0xea, none, none, none, none⟩) 4 := by decide

example : Message.decode [0xa4, 0x0c, 0x4e, 0x00, 0x84, 0x22, 0x06, 0x1d, 0xd0, 0x25, 0x05,
    0x48, 0x20, 0xee, 0xbe, 0x93]
    = .ok (.BroadcastData ⟨0, some ⟨0x84, 0x22, 0x06, 0x1d, 0xd0, 0x25, 0x05, 0x48⟩,
        none, none, some 0xbeee⟩) 16 := by decide

example : Message.decode [0xa4, 0x0e, 0x4e, 0x00, 0x01, 0x00, 0x20, 0x08, 0x60, 0xff, 0x00,
    0x00, 0x40, 0x10, 0x01, 0x6c, 0x00, 0x6f]
    = .ok (.BroadcastData ⟨0, some ⟨0x01, 0x00, 0x20, 0x08, 0x60, 0xff, 0x00, 0x00⟩,
        none, some ⟨0x10, 0x01, 0x6c⟩, none⟩) 18 := by decide

example : Message.decode [0xa4, 0x14, 0x4e, 0x00, 0x02, 0x00, 0x16, 0x0e, 0xc7, 0xdc, 0x00,
    0x01, 0xe0, 0x53, 0x6f, 0x23, 0x65, 0x10, 0x01, 0x6d, 0x00, 0x61, 0x84, 0xfd]
    = .ok (.BroadcastData ⟨0, some ⟨0x02, 0x00, 0x16, 0x0e, 0xc7, 0xdc, 0x00, 0x01⟩,
        some ⟨0x6f53, 0x23, 0x65⟩, some ⟨0x10, 0x01, 0x6d⟩, some 0x8461⟩) 24 := by decide

example : Message.decode [0xa4, 8, 0x54, 0x10, 0x05, 0x3f, 0xfa, 0xf7, 0x49, 0xdf, 0x01, 0x48]
    = .ok (.Capabilities ⟨16, 5, 0x3f, 0xfa, 0xf7, 73, 0xdf, 0x01⟩) 12 := by decide

example : Message.decode [0xa4, 0x07, 0x54, 0x08, 0x08, 0x00, 0xba, 0x36, 0x00, 0xdf, 0xa4]
    = .ok (.Capabilities ⟨8, 8, 0x00, 0xba, 0x36, 0, 0xdf, 0x00⟩) 11 := by decide

example : Message.encode (.SetNetworkKey ⟨0, ⟨9, 8, 7, 6, 5, 4, 3, 2⟩⟩)
    = some [0xa4, 9, 0x46, 0, 9, 8, 7, 6, 5, 4, 3, 2, 235] := by decide

example : Message.encode (.AcknowledgedData ⟨0, some ⟨0x04, 0x1a, 0x2e, 0xd9, 0xe4, 0xda,
    0x10, 0x47⟩, none, none, none⟩)
    = some [0xa4, 0x09, 0x4f, 0x00, 0x04, 0x1a, 0x2e, 0xd9, 0xe4, 0xda, 0x10, 0x47, 0x62] := by
  decide

example : Message.decode [0xa4, 4, 0x42, 0x02, 0x40, 0x00, 0x01, 0xa1]
    = .ok (.AssignChannel ⟨2, .ReceiveOnly, 0, 0x01⟩) 8 := by decide

example : Message.decode [0xa4, 0x03, 0x40, 0x00, 0x46, 0x00, 0xa1]
    = .ok (.ChannelResponseEvent ⟨0, .SetNetworkKey, .ResponseNoError⟩) 7 := by decide

example : Message.decode [0xa4, 0x05, 0x51, 0x02, 0xf7, 0x27, 0xf8, 0x00, 0xda]
    = .ok (.SetChannelID ⟨2, 10231, true, 120, 0⟩) 9 := by decide

lemma xorList_append (l₁ l₂ : List Nat) :
    xorList (l₁ ++ l₂) = xorList l₁ ^^^ xorList l₂ := by
  induction l₁ with
  | nil => simp [xorList]
  | cons a l ih => simp [xorList, ih, Nat.xor_assoc]

/-- Appending the XOR of a frame body as its checksum makes the whole frame
XOR to zero — the well-formedness check inside `Message::decode`. -/
lemma xorList_withChecksum (l : List Nat) : xorList (withChecksum l) = 0 := by
  rw [withChecksum, xorList_append]
  simp [xorList]

lemma channelTypeFromByte_toByte (ct : ChannelType) :
    ChannelType.fromByte ct.toByte = some ct := by
  cases ct <;> rfl

lemma messageIDFromByte_toByte (id : MessageID) :
    MessageID.fromByte id.toByte = some id := by
  cases id <;> rfl

lemma messageCodeFromByte_toByte (mc : MessageCode) :
    MessageCode.fromByte mc.toByte = some mc := by
  cases mc <;> rfl

lemma or128_and_127 : ∀ x, x < 128 → (128 ||| x) &&& 127 = x := by decide

lemma or128_and_128 : ∀ x, x < 128 → (128 ||| x) &&& 128 = 128 := by decide

lemma small_and_127 : ∀ x, x < 128 → x &&& 127 = x := by decide

lemma small_and_128 : ∀ x, x < 128 → x &&& 128 = 0 := by decide

/-- Once the four header checks of `Message::decode` pass, decoding continues
with the per-variant arms. -/
lemma decode_eq_arms (data : List Nat) (id : MessageID)
    (h4 : ¬data.length < 4) (hsync : data.getD 0 0 = SYNC)
    (hlen : ¬data.length < (data.getD 1 0 + 4) % 256)
    (hid : MessageID.fromByte (data.getD 2 0) = some id)
    (hchk : xorList (data.take ((data.getD 1 0 + 4) % 256)) = 0) :
    Message.decode data = decodeArms id data (data.getD 1 0) ((data.getD 1 0 + 4) % 256) := by
  simp only [Message.decode, if_neg h4,
    if_neg (show ¬data.getD 0 0 ≠ SYNC from fun hne => hne hsync), if_neg hlen, hid,
    if_neg (show ¬xorList (data.take ((data.getD 1 0 + 4) % 256)) ≠ 0 from fun hne => hne hchk)]

/-- The message that `Message::decode` reconstructs from `Message::encode m`:
identical to `m` except that data payloads lose their extended trailers (the
encoder never emits them) and `SetChannelID` keeps only the `u16` device
number and 7-bit device type the wire format can carry. -/
def Message.normalize : Message → Message
  | .AcknowledgedData p => .AcknowledgedData ⟨p.channel, p.data, none, none, none⟩
  | .BroadcastData p => .BroadcastData ⟨p.channel, p.data, none, none, none⟩
  | .SetChannelID x =>
    .SetChannelID ⟨x.channel, x.device % 65536, x.pairing, x.device_type &&& 0x7f,
      x.transmission_type⟩
  | .SetChannelPeriod x => .SetChannelPeriod ⟨x.channel, x.period % 65536⟩
  | m => m

/-- The `ChannelResponseEvent` arm on a buffer whose bytes 4 and 5 carry
valid message-id and message-code discriminants. -/
lemma decodeArms_cre (data : List Nat) (dl ml : Nat) (mid : MessageID) (mc : MessageCode)
    (h4 : data.get? 4 = some mid.toByte) (h5 : data.get? 5 = some mc.toByte) :
    decodeArms .ChannelResponseEvent data dl ml
      = .ok (.ChannelResponseEvent ⟨data.getD 3 0, mid, mc⟩) ml := by
  simp only [decodeArms, pread, h4, h5, messageIDFromByte_toByte, messageCodeFromByte_toByte]

/-- The `RequestMessage` arm on a buffer whose byte 4 carries a valid
message-id discriminant. -/
lemma decodeArms_rm (data : List Nat) (dl ml : Nat) (mid : MessageID)
    (h4 : data.get? 4 = some mid.toByte) :
    decodeArms .RequestMessage data dl ml
      = .ok (.RequestMessage ⟨data.getD 3 0, mid⟩) ml := by
  simp only [decodeArms, pread, h4, messageIDFromByte_toByte]

/-- Whenever `Message::encode` succeeds, decoding the produced frame yields
the normalized message with the full frame length consumed, and re-encoding
that message reproduces the frame byte-exactly. -/
theorem decode_encode (m : Message) (f : List Nat) (h : Message.encode m = some f) :
    Message.decode f = .ok m.normalize f.length ∧ Message.encode m.normalize = some f := by
  cases m with
  | AcknowledgedData p =>
    obtain ⟨ch, dta, cid, rs, ts⟩ := p
    cases dta with
    | none => simp [Message.encode, Message.encodeBody, DataPayload.encodeBody] at h
    | some d =>
      have hf : f = withChecksum ([SYNC, 9, MessageID.AcknowledgedData.toByte, ch] ++ d.toList) :=
        (Option.some.inj h).symm
      subst hf
      exact ⟨(decode_eq_arms
        (withChecksum ([SYNC, 9, MessageID.AcknowledgedData.toByte, ch] ++ d.toList))
        .AcknowledgedData (of_decide_eq_false rfl) rfl (of_decide_eq_false rfl) rfl
        (xorList_withChecksum ([SYNC, 9, MessageID.AcknowledgedData.toByte, ch] ++ d.toList))).trans
        rfl, rfl⟩
  | AssignChannel x =>
    obtain ⟨ch, ct, nw, ext⟩ := x
    have hf : f = withChecksum (AssignChannelData.encodeBody ⟨ch, ct, nw, ext⟩) :=
      (Option.some.inj h).symm
    subst hf
    exact ⟨(decode_eq_arms (withChecksum (AssignChannelData.encodeBody ⟨ch, ct, nw, ext⟩))
      .AssignChannel (of_decide_eq_false rfl) rfl (of_decide_eq_false rfl) rfl
      (xorList_withChecksum (AssignChannelData.encodeBody ⟨ch, ct, nw, ext⟩))).trans
      (by cases ct <;> rfl), rfl⟩
  | BroadcastData p =>
    obtain ⟨ch, dta, cid, rs, ts⟩ := p
    cases dta with
    | none => simp [Message.encode, Message.encodeBody, DataPayload.encodeBody] at h
    | some d =>
      have hf : f = withChecksum ([SYNC, 9, MessageID.BroadcastData.toByte, ch] ++ d.toList) :=
        (Option.some.inj h).symm
      subst hf
      exact ⟨(decode_eq_arms
        (withChecksum ([SYNC, 9, MessageID.BroadcastData.toByte, ch] ++ d.toList))
        .BroadcastData (of_decide_eq_false rfl) rfl (of_decide_eq_false rfl) rfl
        (xorList_withChecksum ([SYNC, 9, MessageID.BroadcastData.toByte, ch] ++ d.toList))).trans
        rfl, rfl⟩
  | Capabilities x =>
    have hf : f = withChecksum x.encodeBody := (Option.some.inj h).symm
    subst hf
    exact ⟨(decode_eq_arms (withChecksum x.encodeBody) .Capabilities (of_decide_eq_false rfl)
      rfl (of_decide_eq_false rfl) rfl (xorList_withChecksum x.encodeBody)).trans rfl, rfl⟩
  | ChannelResponseEvent x =>
    obtain ⟨ch, mid, mc⟩ := x
    have hf : f = withChecksum (ChannelResponseEventData.encodeBody ⟨ch, mid, mc⟩) :=
      (Option.some.inj h).symm
    subst hf
    exact ⟨(decode_eq_arms (withChecksum (ChannelResponseEventData.encodeBody ⟨ch, mid, mc⟩))
      .ChannelResponseEvent (of_decide_eq_false rfl) rfl (of_decide_eq_false rfl) rfl
      (xorList_withChecksum (ChannelResponseEventData.encodeBody ⟨ch, mid, mc⟩))).trans
      ((decodeArms_cre (withChecksum (ChannelResponseEventData.encodeBody ⟨ch, mid, mc⟩))
        ((withChecksum (ChannelResponseEventData.encodeBody ⟨ch, mid, mc⟩)).getD 1 0)
        (((withChecksum (ChannelResponseEventData.encodeBody ⟨ch, mid, mc⟩)).getD 1 0 + 4) % 256)
        mid mc rfl rfl).trans rfl), rfl⟩
  | CloseChannel x =>
    obtain ⟨ch⟩ := x
    have hf : f = withChecksum (CloseChannelData.encodeBody ⟨ch⟩) := (Option.some.inj h).symm
    subst hf
    exact ⟨(decode_eq_arms (withChecksum (CloseChannelData.encodeBody ⟨ch⟩)) .CloseChannel
      (of_decide_eq_false rfl) rfl (of_decide_eq_false rfl) rfl
      (xorList_withChecksum (CloseChannelData.encodeBody ⟨ch⟩))).trans rfl, rfl⟩
  | EnableExtendedMessages x =>
    obtain ⟨e⟩ := x
    have hf : f = withChecksum (EnableExtendedMessagesData.encodeBody ⟨e⟩) :=
      (Option.some.inj h).symm
    subst hf
    exact ⟨(decode_eq_arms (withChecksum (EnableExtendedMessagesData.encodeBody ⟨e⟩))
      .EnableExtendedMessages (of_decide_eq_false rfl) rfl (of_decide_eq_false rfl) rfl
      (xorList_withChecksum (EnableExtendedMessagesData.encodeBody ⟨e⟩))).trans rfl, rfl⟩
  | LibConfig x =>
    obtain ⟨c⟩ := x
    have hf : f = withChecksum (LibConfigData.encodeBody ⟨c⟩) := (Option.some.inj h).symm
    subst hf
    exact ⟨(decode_eq_arms (withChecksum (LibConfigData.encodeBody ⟨c⟩)) .LibConfig
      (of_decide_eq_false rfl) rfl (of_decide_eq_false rfl) rfl
      (xorList_withChecksum (LibConfigData.encodeBody ⟨c⟩))).trans rfl, rfl⟩
  | OpenChannel x =>
    obtain ⟨ch⟩ := x
    have hf : f = withChecksum (OpenChannelData.encodeBody ⟨ch⟩) := (Option.some.inj h).symm
    subst hf
    exact ⟨(decode_eq_arms (withChecksum (OpenChannelData.encodeBody ⟨ch⟩)) .OpenChannel
      (of_decide_eq_false rfl) rfl (of_decide_eq_false rfl) rfl
      (xorList_withChecksum (OpenChannelData.encodeBody ⟨ch⟩))).trans rfl, rfl⟩
  | RequestMessage x =>
    obtain ⟨ch, mid⟩ := x
    have hf : f = withChecksum (RequestMessageData.encodeBody ⟨ch, mid⟩) :=
      (Option.some.inj h).symm
    subst hf
    exact ⟨(decode_eq_arms (withChecksum (RequestMessageData.encodeBody ⟨ch, mid⟩))
      .RequestMessage (of_decide_eq_false rfl) rfl (of_decide_eq_false rfl) rfl
      (xorList_withChecksum (RequestMessageData.encodeBody ⟨ch, mid⟩))).trans
      ((decodeArms_rm (withChecksum (RequestMessageData.encodeBody ⟨ch, mid⟩))
        ((withChecksum (RequestMessageData.encodeBody ⟨ch, mid⟩)).getD 1 0)
        (((withChecksum (RequestMessageData.encodeBody ⟨ch, mid⟩)).getD 1 0 + 4) % 256)
        mid rfl).trans rfl), rfl⟩
  | ResetSystem =>
    have hf : f = withChecksum resetSystemEncodeBody := (Option.some.inj h).symm
    subst hf
    exact ⟨by decide, by decide⟩
  | SetChannelID x =>
    obtain ⟨ch, dev, pr, dt, tt⟩ := x
    have hf : f = withChecksum (SetChannelIDData.encodeBody ⟨ch, dev, pr, dt, tt⟩) :=
      (Option.some.inj h).symm
    subst hf
    have hdt : dt &&& 127 < 128 := lt_of_le_of_lt Nat.and_le_right (by omega)
    have hb1 : (((if pr then 128 else 0) ||| (dt &&& 127)) &&& 128 == 128) = pr := by
      cases pr
      · simp [Nat.zero_or, small_and_128 _ hdt]
      · simp [or128_and_128 _ hdt]
    have hb2 : ((if pr then 128 else 0) ||| (dt &&& 127)) &&& 127 = dt &&& 127 := by
      cases pr
      · simp [Nat.zero_or, small_and_127 _ hdt]
      · simp [or128_and_127 _ hdt]
    constructor
    · refine (decode_eq_arms (withChecksum (SetChannelIDData.encodeBody ⟨ch, dev, pr, dt, tt⟩))
        .SetChannelID (of_decide_eq_false rfl) rfl (of_decide_eq_false rfl) rfl
        (xorList_withChecksum (SetChannelIDData.encodeBody ⟨ch, dev, pr, dt, tt⟩))).trans ?_
      show DecodeOutcome.ok (.SetChannelID ⟨ch, dev % 256 + 256 * (dev / 256 % 256),
        ((if pr then 128 else 0) ||| (dt &&& 127)) &&& 128 == 128,
        ((if pr then 128 else 0) ||| (dt &&& 127)) &&& 127, tt⟩) 9 = _
      rw [hb1, hb2, show dev % 256 + 256 * (dev / 256 % 256) = dev % 65536 by omega]
      rfl
    · have e1 : dev % 65536 % 256 = dev % 256 := by omega
      have e2 : dev % 65536 / 256 % 256 = dev / 256 % 256 := by omega
      have e3 : (dt &&& 127) &&& 127 = dt &&& 127 := small_and_127 _ hdt
      simp only [Message.encode, Message.encodeBody, Message.normalize,
        SetChannelIDData.encodeBody, e1, e2, e3]
      rfl
  | SetChannelLowPrioritySearchTimeout x =>
    obtain ⟨ch, t⟩ := x
    have hf : f = withChecksum (SetChannelLowPrioritySearchTimeoutData.encodeBody ⟨ch, t⟩) :=
      (Option.some.inj h).symm
    subst hf
    exact ⟨(decode_eq_arms
      (withChecksum (SetChannelLowPrioritySearchTimeoutData.encodeBody ⟨ch, t⟩))
      .SetChannelLowPrioritySearchTimeout (of_decide_eq_false rfl) rfl (of_decide_eq_false rfl)
      rfl (xorList_withChecksum
        (SetChannelLowPrioritySearchTimeoutData.encodeBody ⟨ch, t⟩))).trans rfl, rfl⟩
  | SetChannelPeriod x =>
    obtain ⟨ch, p⟩ := x
    have hf : f = withChecksum (SetChannelPeriodData.encodeBody ⟨ch, p⟩) :=
      (Option.some.inj h).symm
    subst hf
    constructor
    · refine (decode_eq_arms (withChecksum (SetChannelPeriodData.encodeBody ⟨ch, p⟩))
        .SetChannelPeriod (of_decide_eq_false rfl) rfl (of_decide_eq_false rfl) rfl
        (xorList_withChecksum (SetChannelPeriodData.encodeBody ⟨ch, p⟩))).trans ?_
      show DecodeOutcome.ok (.SetChannelPeriod ⟨ch, p % 256 + 256 * (p / 256 % 256)⟩) 7 = _
      rw [show p % 256 + 256 * (p / 256 % 256) = p % 65536 by omega]
      rfl
    · have e1 : p % 65536 % 256 = p % 256 := by omega
      have e2 : p % 65536 / 256 % 256 = p / 256 % 256 := by omega
      simp only [Message.encode, Message.encodeBody, Message.normalize,
        SetChannelPeriodData.encodeBody, e1, e2]
      rfl
  | SetChannelRFFrequency x =>
    obtain ⟨ch, fr⟩ := x
    have hf : f = withChecksum (SetChannelRFFrequencyData.encodeBody ⟨ch, fr⟩) :=
      (Option.some.inj h).symm
    subst hf
    exact ⟨(decode_eq_arms (withChecksum (SetChannelRFFrequencyData.encodeBody ⟨ch, fr⟩))
      .SetChannelRFFrequency (of_decide_eq_false rfl) rfl (of_decide_eq_false rfl) rfl
      (xorList_withChecksum (SetChannelRFFrequencyData.encodeBody ⟨ch, fr⟩))).trans rfl, rfl⟩
  | SetChannelSearchTimeout x =>
    obtain ⟨ch, t⟩ := x
    have hf : f = withChecksum (SetChannelSearchTimeoutData.encodeBody ⟨ch, t⟩) :=
      (Option.some.inj h).symm
    subst hf
    exact ⟨(decode_eq_arms (withChecksum (SetChannelSearchTimeoutData.encodeBody ⟨ch, t⟩))
      .SetChannelSearchTimeout (of_decide_eq_false rfl) rfl (of_decide_eq_false rfl) rfl
      (xorList_withChecksum (SetChannelSearchTimeoutData.encodeBody ⟨ch, t⟩))).trans rfl, rfl⟩
  | SetNetworkKey x =>
    obtain ⟨nw, k⟩ := x
    have hf : f = withChecksum (SetNetworkKeyData.encodeBody ⟨nw, k⟩) :=
      (Option.some.inj h).symm
    subst hf
    exact ⟨(decode_eq_arms (withChecksum (SetNetworkKeyData.encodeBody ⟨nw, k⟩)) .SetNetworkKey
      (of_decide_eq_false rfl) rfl (of_decide_eq_false rfl) rfl
      (xorList_withChecksum (SetNetworkKeyData.encodeBody ⟨nw, k⟩))).trans rfl, rfl⟩
  | StartupMessage x =>
    obtain ⟨r⟩ := x
    have hf : f = withChecksum (StartupMessageData.encodeBody ⟨r⟩) := (Option.some.inj h).symm
    subst hf
    exact ⟨(decode_eq_arms (withChecksum (StartupMessageData.encodeBody ⟨r⟩)) .StartupMessage
      (of_decide_eq_false rfl) rfl (of_decide_eq_false rfl) rfl
      (xorList_withChecksum (StartupMessageData.encodeBody ⟨r⟩))).trans rfl, rfl⟩

/-- All eight bytes of a `[u8; 8]` value are in `u8` range. -/
def Bytes8.wf (b : Bytes8) : Prop :=
  b.b0 < 256 ∧ b.b1 < 256 ∧ b.b2 < 256 ∧ b.b3 < 256 ∧ b.b4 < 256 ∧ b.b5 < 256 ∧
    b.b6 < 256 ∧ b.b7 < 256

/-- Every field of a `DataPayload` fits its declared Rust integer type. -/
def DataPayload.wf (p : DataPayload) : Prop :=
  p.channel < 256 ∧ (∀ d, p.data = some d → d.wf) ∧
  (∀ c, p.channel_id = some c →
    c.device_number < 65536 ∧ c.device_type < 256 ∧ c.transmission_type < 256) ∧
  (∀ r, p.rssi = some r →
    r.measurement_type < 256 ∧ r.rssi < 256 ∧ r.threshold_config < 256) ∧
  (∀ t, p.rx_timestamp = some t → t < 65536)

/-- Well-formedness of a `Message`: every field fits the Rust integer type it
is declared with (`u8` below 256, `u16` below 65536). -/
def Message.wf : Message → Prop
  | .AcknowledgedData p => p.wf
  | .BroadcastData p => p.wf
  | .AssignChannel x => x.channel < 256 ∧ x.network < 256 ∧ x.extended_assignment < 256
  | .Capabilities x =>
    x.max_channels < 256 ∧ x.max_networks < 256 ∧ x.standard_options < 256 ∧
      x.advanced_options < 256 ∧ x.advanced_options_2 < 256 ∧
      x.max_sensrcore_channels < 256 ∧ x.advanced_options_3 < 256 ∧ x.advanced_options_4 < 256
  | .ChannelResponseEvent x => x.channel < 256
  | .CloseChannel x => x.channel < 256
  | .EnableExtendedMessages x => x.enabled < 256
  | .LibConfig x => x.config < 256
  | .OpenChannel x => x.channel < 256
  | .RequestMessage x => x.channel < 256
  | .ResetSystem => True
  | .SetChannelID x =>
    x.channel < 256 ∧ x.device < 65536 ∧ x.device_type < 256 ∧ x.transmission_type < 256
  | .SetChannelLowPrioritySearchTimeout x => x.channel < 256 ∧ x.timeout < 256
  | .SetChannelPeriod x => x.channel < 256 ∧ x.period < 65536
  | .SetChannelRFFrequency x => x.channel < 256 ∧ x.frequency < 256
  | .SetChannelSearchTimeout x => x.channel < 256 ∧ x.timeout < 256
  | .SetNetworkKey x => x.network < 256 ∧ x.key.wf
  | .StartupMessage x => x.reason < 256

/-- The shapes `Message::encode` can actually represent on the wire: data
payloads must carry the 8-byte payload and no extended trailers (the encoder
panics on a missing payload and silently drops trailers), and the
`SetChannelID` device type must fit the 7 bits left next to the pairing
flag. -/
def Message.wireCanonical : Message → Prop
  | .AcknowledgedData p => p.data.isSome ∧ p.channel_id = none ∧ p.rssi = none ∧
      p.rx_timestamp = none
  | .BroadcastData p => p.data.isSome ∧ p.channel_id = none ∧ p.rssi = none ∧
      p.rx_timestamp = none
  | .SetChannelID x => x.device_type < 128
  | _ => True

lemma normalize_eq_self (m : Message) (hwf : m.wf) (hc : m.wireCanonical) :
    m.normalize = m := by
  cases m with
  | AcknowledgedData p =>
    obtain ⟨ch, dta, cid, rs, ts⟩ := p
    obtain ⟨-, hcid, hrs, hts⟩ := hc
    subst hcid; subst hrs; subst hts
    rfl
  | BroadcastData p =>
    obtain ⟨ch, dta, cid, rs, ts⟩ := p
    obtain ⟨-, hcid, hrs, hts⟩ := hc
    subst hcid; subst hrs; subst hts
    rfl
  | SetChannelID x =>
    obtain ⟨ch, dev, pr, dt, tt⟩ := x
    obtain ⟨-, hdev, -, -⟩ := hwf
    show Message.SetChannelID ⟨ch, dev % 65536, pr, dt &&& 127, tt⟩ = _
    rw [Nat.mod_eq_of_lt hdev, small_and_127 dt hc]
  | SetChannelPeriod x =>
    obtain ⟨ch, p⟩ := x
    obtain ⟨-, hp⟩ := hwf
    show Message.SetChannelPeriod ⟨ch, p % 65536⟩ = _
    rw [Nat.mod_eq_of_lt hp]
  | AssignChannel x => rfl
  | Capabilities x => rfl
  | ChannelResponseEvent x => rfl
  | CloseChannel x => rfl
  | EnableExtendedMessages x => rfl
  | LibConfig x => rfl
  | OpenChannel x => rfl
  | RequestMessage x => rfl
  | ResetSystem => rfl
  | SetChannelLowPrioritySearchTimeout x => rfl
  | SetChannelRFFrequency x => rfl
  | SetChannelSearchTimeout x => rfl
  | SetNetworkKey x => rfl
  | StartupMessage x => rfl

lemma encode_total (m : Message) (hc : m.wireCanonical) : ∃ f, Message.encode m = some f := by
  cases m with
  | AcknowledgedData p =>
    obtain ⟨ch, dta, cid, rs, ts⟩ := p
    cases dta with
    | none => exact absurd hc.1 (by simp)
    | some d => exact ⟨_, rfl⟩
  | BroadcastData p =>
    obtain ⟨ch, dta, cid, rs, ts⟩ := p
    cases dta with
    | none => exact absurd hc.1 (by simp)
    | some d => exact ⟨_, rfl⟩
  | AssignChannel x => exact ⟨_, rfl⟩
  | Capabilities x => exact ⟨_, rfl⟩
  | ChannelResponseEvent x => exact ⟨_, rfl⟩
  | CloseChannel x => exact ⟨_, rfl⟩
  | EnableExtendedMessages x => exact ⟨_, rfl⟩
  | LibConfig x => exact ⟨_, rfl⟩
  | OpenChannel x => exact ⟨_, rfl⟩
  | RequestMessage x => exact ⟨_, rfl⟩
  | ResetSystem => exact ⟨_, rfl⟩
  | SetChannelID x => exact ⟨_, rfl⟩
  | SetChannelLowPrioritySearchTimeout x => exact ⟨_, rfl⟩
  | SetChannelPeriod x => exact ⟨_, rfl⟩
  | SetChannelRFFrequency x => exact ⟨_, rfl⟩
  | SetChannelSearchTimeout x => exact ⟨_, rfl⟩
  | SetNetworkKey x => exact ⟨_, rfl⟩
  | StartupMessage x => exact ⟨_, rfl⟩

/-- C1 (amended): for every well-formed `Message` whose data payloads carry
the 8-byte payload and no extended trailers and whose `SetChannelID` device
type fits 7 bits, `Message::encode` succeeds and `Message::decode` of the
produced frame returns exactly the original message together with the full
frame length. -/
theorem c1_encode_decode_roundtrip (m : Message) (hwf : m.wf) (hc : m.wireCanonical) :
    ∃ f, Message.encode m = some f ∧ Message.decode f = .ok m f.length := by
  obtain ⟨f, hf⟩ := encode_total m hc
  obtain ⟨hd, -⟩ := decode_encode m f hf
  exact ⟨f, hf, by rw [hd, normalize_eq_self m hwf hc]⟩

def c1Example : Message := .BroadcastData ⟨0, some ⟨1, 2, 3, 4, 5, 6, 7, 8⟩, none, none, none⟩

theorem c1_roundtrip_witness :
    (Message.wf c1Example ∧ Message.wireCanonical c1Example) ∧
    ∃ f, Message.encode c1Example = some f ∧
      Message.decode f = .ok c1Example f.length := by
  have hwf : Message.wf c1Example := by
    simp [c1Example, Message.wf, DataPayload.wf, Bytes8.wf]
  have hc : Message.wireCanonical c1Example := by
    simp [c1Example, Message.wireCanonical]
  exact ⟨⟨hwf, hc⟩, c1_encode_decode_roundtrip c1Example hwf hc⟩

def c1CexMessage : Message :=
  .BroadcastData ⟨0, some ⟨0x01, 0x00, 0x20, 0x08, 0x60, 0xff, 0x00, 0x00⟩,
    some ⟨0x6f53, 0x23, 0x65⟩, none, none⟩

/-- C1 counterexample: a well-formed `BroadcastData` message carrying a
channel-id trailer encodes to a plain 13-byte frame that decodes to a
different message (the trailer is lost), so `decode (encode m)` is not
`(m, encode(m).len())` for every valid payload shape. -/
theorem c1_roundtrip_cex :
    Message.encode c1CexMessage
      = some [0xa4, 0x09, 0x4e, 0x00, 0x01, 0x00, 0x20, 0x08, 0x60, 0xff, 0x00, 0x00, 0x55] ∧
    Message.decode [0xa4, 0x09, 0x4e, 0x00, 0x01, 0x00, 0x20, 0x08, 0x60, 0xff, 0x00, 0x00, 0x55]
      = .ok (.BroadcastData ⟨0, some ⟨0x01, 0x00, 0x20, 0x08, 0x60, 0xff, 0x00, 0x00⟩,
          none, none, none⟩) 13 ∧
    (Message.BroadcastData ⟨0, some ⟨0x01, 0x00, 0x20, 0x08, 0x60, 0xff, 0x00, 0x00⟩,
        none, none, none⟩) ≠ c1CexMessage := by
  refine ⟨by decide, by decide, by decide⟩

/-- C2 (amended): every on-wire frame that is itself the encoding of some
message re-encodes byte-exactly after decoding: if `encode m₀ = f` and
`decode f = ok (m, n)` then `encode m = f` and `n = f.length`. -/
theorem c2_wire_roundtrip (f : List Nat) (m0 : Message) (h0 : Message.encode m0 = some f)
    (m : Message) (n : Nat) (hdec : Message.decode f = .ok m n) :
    Message.encode m = some f ∧ n = f.length := by
  obtain ⟨hd, he⟩ := decode_encode m0 f h0
  rw [hd] at hdec
  injection hdec with h1 h2
  subst h1
  subst h2
  exact ⟨he, rfl⟩

theorem c2_wire_roundtrip_witness :
    Message.encode (.OpenChannel ⟨2⟩) = some [0xa4, 0x01, 0x4b, 0x02, 0xec] ∧
    (5 : Nat) = [0xa4, 0x01, 0x4b, 0x02, 0xec].length :=
  c2_wire_roundtrip [0xa4, 0x01, 0x4b, 0x02, 0xec] (.OpenChannel ⟨2⟩) (by decide)
    (.OpenChannel ⟨2⟩) 5 (by decide)

/-- C2 counterexample: the extended broadcast frame with a channel-id trailer
is accepted by `decode`, but re-encoding the decoded message yields the plain
13-byte frame, not the original 18-byte frame. -/
theorem c2_wire_roundtrip_cex :
    Message.decode [0xa4, 0x0e, 0x4e, 0x00, 0x01, 0x00, 0x20, 0x08, 0x60, 0xff, 0x00, 0x00,
        0x80, 0x53, 0x6f, 0x23, 0x65, 0xa8]
      = .ok (.BroadcastData ⟨0, some ⟨0x01, 0x00, 0x20, 0x08, 0x60, 0xff, 0x00, 0x00⟩,
          some ⟨0x6f53, 0x23, 0x65⟩, none, none⟩) 18 ∧
    Message.encode (.BroadcastData ⟨0, some ⟨0x01, 0x00, 0x20, 0x08, 0x60, 0xff, 0x00, 0x00⟩,
        some ⟨0x6f53, 0x23, 0x65⟩, none, none⟩)
      = some [0xa4, 0x09, 0x4e, 0x00, 0x01, 0x00, 0x20, 0x08, 0x60, 0xff, 0x00, 0x00, 0x55] ∧
    [0xa4, 0x09, 0x4e, 0x00, 0x01, 0x00, 0x20, 0x08, 0x60, 0xff, 0x00, 0x00, 0x55]
      ≠ [0xa4, 0x0e, 0x4e, 0x00, 0x01, 0x00, 0x20, 0x08, 0x60, 0xff, 0x00, 0x00, 0x80, 0x53,
          0x6f, 0x23, 0x65, 0xa8] := by
  refine ⟨by decide, by decide, by decide⟩

/-- C4: the extended broadcast frame with the channel-id flag `0x80` decodes
to channel 0 with channel id `{device_number 0x6F53, device_type 0x23,
transmission_type 0x65}` and no RSSI or timestamp, and the frame with flag
`0x60` decodes to RSSI `{10,01,6A}` with rx timestamp `0x5E24` because one
pad byte is skipped between the RSSI triple and the timestamp. -/
theorem c4_extended_broadcast_decode :
    Message.decode [0xa4, 0x0e, 0x4e, 0x00, 0x01, 0x00, 0x20, 0x08, 0x60, 0xff, 0x00, 0x00,
        0x80, 0x53, 0x6f, 0x23, 0x65, 0xa8]
      = .ok (.BroadcastData ⟨0, some ⟨0x01, 0x00, 0x20, 0x08, 0x60, 0xff, 0x00, 0x00⟩,
          some ⟨0x6f53, 0x23, 0x65⟩, none, none⟩) 18 ∧
    Message.decode [0xa4, 0x10, 0x4e, 0x00, 0x01, 0x00, 0x20, 0x08, 0x60, 0xff, 0x00, 0x00,
        0x60, 0x10, 0x01, 0x6a, 0x00, 0x24, 0x5e, 0x2d]
      = .ok (.BroadcastData ⟨0, some ⟨0x01, 0x00, 0x20, 0x08, 0x60, 0xff, 0x00, 0x00⟩,
          none, some ⟨0x10, 0x01, 0x6a⟩, some 0x5e24⟩) 20 := by
  refine ⟨by decide, by decide⟩

/-- C5: every checksum-valid Capabilities frame with payload length 7 (the
`advanced_options_4` byte absent) decodes without error; `advanced_options_4`
is the empty bitflag set and all other fields come from the payload bytes. -/
theorem c5_capabilities_short_form (mc mn so ao ao2 msc ao3 : Nat) :
    Message.decode (withChecksum [0xa4, 7, 0x54, mc, mn, so, ao, ao2, msc, ao3])
      = .ok (.Capabilities ⟨mc, mn, so, ao, ao2, msc, ao3, 0⟩) 11 :=
  (decode_eq_arms (withChecksum [0xa4, 7, 0x54, mc, mn, so, ao, ao2, msc, ao3]) .Capabilities
    (of_decide_eq_false rfl) rfl (of_decide_eq_false rfl) rfl
    (xorList_withChecksum [0xa4, 7, 0x54, mc, mn, so, ao, ao2, msc, ao3])).trans rfl

/-- C7 (amended): a frame whose message-id byte is `0x01` (`ChannelEvent`) is
rejected with `InvalidMessageID(0x01)` once the header, length and checksum
checks pass; `ChannelEvent` is never accepted as a top-level id. -/
theorem c7_channel_event_rejected (b : Nat) (rest : List Nat) (h1 : 1 ≤ rest.length)
    (h2 : (b + 4) % 256 ≤ rest.length + 3)
    (h3 : xorList ((0xa4 :: b :: 0x01 :: rest).take ((b + 4) % 256)) = 0) :
    Message.decode (0xa4 :: b :: 0x01 :: rest) = .error (.InvalidMessageID 0x01) := by
  have h4 : ¬(0xa4 :: b :: 0x01 :: rest).length < 4 := by
    simp only [List.length_cons]
    omega
  have hlen : ¬(0xa4 :: b :: 0x01 :: rest).length
      < ((0xa4 :: b :: 0x01 :: rest).getD 1 0 + 4) % 256 := by
    simp only [List.length_cons]
    show ¬rest.length + 1 + 1 + 1 < (b + 4) % 256
    omega
  exact (decode_eq_arms (0xa4 :: b :: 0x01 :: rest) .ChannelEvent h4 rfl hlen rfl h3).trans rfl

theorem c7_channel_event_rejected_witness :
    Message.decode [0xa4, 0x00, 0x01, 0xa5] = .error (.InvalidMessageID 0x01) :=
  c7_channel_event_rejected 0 [0xa5] (by decide) (by decide) (by decide)

/-- C7 counterexample: not every input whose byte at index 2 is `0x01`
produces `InvalidMessageID(0x01)` — the checksum is verified first, so a
checksum-invalid frame with id byte `0x01` fails with `InvalidChecksum`. -/
theorem c7_channel_event_rejected_cex :
    Message.decode [0xa4, 0x00, 0x01, 0x00] = .error .InvalidChecksum ∧
    Error.InvalidChecksum ≠ Error.InvalidMessageID 0x01 := by
  refine ⟨by decide, by decide⟩

/-- C9: `Message::decode` is not total — it panics (out-of-bounds slice
index) on a checksum-valid 4-byte Capabilities frame with LEN 0, and on a
4-byte frame whose LEN byte is 252, where the `u8` sum `LEN + 4` wraps to 0
so the length guard passes vacuously. -/
theorem c9_decode_panics :
    Message.decode [0xa4, 0x00, 0x54, 0xf0] = .panic ∧
    Message.decode [0xa4, 0xfc, 0x46, 0x1e] = .panic := by
  refine ⟨by decide, by decide⟩

/-- C10: `Message::encode` is not total — on the zero-length `BroadcastData`
payload that `decode` itself produces for the LEN 0 frame, `DataPayload::encode`
calls `unwrap()` on `None` and panics (modelled as `none`). -/
theorem c10_encode_panics :
    Message.decode [0xa4, 0x00, 0x4e, 0xea]
      = .ok (.BroadcastData ⟨0xea, none, none, none, none⟩) 4 ∧
    Message.encode (.BroadcastData ⟨0xea, none, none, none, none⟩) = none := by
  refine ⟨by decide, by decide⟩

/-- `ChannelStatus` of `node.rs`. -/
inductive ChannelStatus where
  | Assigned
  | Open
  | Closing
  | Closed
  deriving DecidableEq, Repr

/-- The variants of the `node::Error` enum reached by channel allocation and
release. -/
inductive NodeError where
  | NoAvailableChannel
  | CapabilitiesNotInitialized
  | ChannelInvalidState
  deriving DecidableEq, Repr

/-- The channel table of `Node`: `max_channels` from the stored capabilities
(`none` before `open` stored them), and the `assigned` `HashMap` keyed by
channel number, reduced to the per-channel `status` (the boxed processor and
event log of a `ChannelAssignment` do not affect allocation). -/
structure NodeState where
  maxChannels : Option Nat
  assigned : Nat → Option ChannelStatus

/-- The `for i in 0..max_channels` scan of `Node::_assign_channel`: starting
at index `i` with `remaining` indices left, return the first index whose
table entry is vacant. -/
def findVacantFrom (a : Nat → Option ChannelStatus) (i : Nat) : Nat → Option Nat
  | 0 => none
  | r + 1 =>
    match a i with
    | none => some i
    | some _ => findVacantFrom a (i + 1) r

/-- `Node::_assign_channel`: require the capabilities, then scan channels
`0..max_channels` in increasing order and insert a fresh `Assigned` entry in
the first vacant slot, returning its index; `NoAvailableChannel` when all
slots are occupied. -/
def assignChannel (s : NodeState) : Except NodeError (Nat × NodeState) :=
  match s.maxChannels with
  | none => .error .CapabilitiesNotInitialized
  | some maxCh =>
    match findVacantFrom s.assigned 0 maxCh with
    | some i =>
      .ok (i, { s with assigned := fun j => if j = i then some .Assigned else s.assigned j })
    | none => .error .NoAvailableChannel

/-- `Node::free_channel`: remove the entry only when its status is `Closed`;
otherwise fail with `ChannelInvalidState`. -/
def freeChannel (s : NodeState) (channel : Nat) : Except NodeError NodeState :=
  if s.assigned channel = some .Closed then
    .ok { s with assigned := fun j => if j = channel then none else s.assigned j }
  else .error .ChannelInvalidState

lemma findVacantFrom_eq_some (a : Nat → Option ChannelStatus) :
    ∀ r i k, findVacantFrom a i r = some k →
      i ≤ k ∧ k < i + r ∧ a k = none ∧ ∀ j, i ≤ j → j < k → a j ≠ none := by
  intro r
  induction r with
  | zero => intro i k h; simp [findVacantFrom] at h
  | succ r ih =>
    intro i k h
    rw [findVacantFrom] at h
    cases hai : a i with
    | none =>
      rw [hai] at h
      injection h with h
      subst h
      exact ⟨le_refl _, by omega, hai, fun j hj1 hj2 => absurd hj2 (by omega)⟩
    | some st =>
      rw [hai] at h
      obtain ⟨h1, h2, h3, h4⟩ := ih (i + 1) k h
      refine ⟨by omega, by omega, h3, fun j hj1 hj2 => ?_⟩
      rcases Nat.eq_or_lt_of_le hj1 with he | hlt
      · rw [← he, hai]; exact fun hc => Option.noConfusion hc
      · exact h4 j hlt hj2

lemma findVacantFrom_eq_none (a : Nat → Option ChannelStatus) :
    ∀ r i, (∀ j, i ≤ j → j < i + r → a j ≠ none) → findVacantFrom a i r = none := by
  intro r
  induction r with
  | zero => intro i _; rfl
  | succ r ih =>
    intro i hcov
    rw [findVacantFrom]
    cases hai : a i with
    | none => exact absurd hai (hcov i (le_refl _) (by omega))
    | some st => exact ih (i + 1) (fun j hj1 hj2 => hcov j (by omega) (by omega))

lemma findVacantFrom_first (a : Nat → Option ChannelStatus) :
    ∀ r i k, i ≤ k → k < i + r → a k = none → (∀ j, i ≤ j → j < k → a j ≠ none) →
      findVacantFrom a i r = some k := by
  intro r
  induction r with
  | zero => intro i k h1 h2 _ _; exact absurd h2 (by omega)
  | succ r ih =>
    intro i k h1 h2 h3 h4
    rw [findVacantFrom]
    rcases Nat.eq_or_lt_of_le h1 with he | hlt
    · subst he; rw [h3]
    · cases hai : a i with
      | none => exact absurd hai (h4 i (le_refl _) hlt)
      | some st =>
        exact ih (i + 1) k (by omega) (by omega) h3 (fun j hj1 hj2 => h4 j (by omega) hj2)

/-- C6: `_assign_channel` scans `0..max_channels` in increasing order and
returns the first vacant index, marking it `Assigned` and leaving every other
entry unchanged; it fails with `NoAvailableChannel` exactly when all
`max_channels` slots are occupied; and after freeing a `Closed` channel `k`
whose lower-numbered channels are all occupied, the next allocation returns
`k` again. -/
theorem c6_channel_allocation (s : NodeState) (maxCh : Nat)
    (hcap : s.maxChannels = some maxCh) :
    (∀ k s2, assignChannel s = .ok (k, s2) →
      k < maxCh ∧ s.assigned k = none ∧ (∀ j, j < k → s.assigned j ≠ none) ∧
        s2.assigned k = some .Assigned ∧ ∀ j, j ≠ k → s2.assigned j = s.assigned j) ∧
    ((∀ i, i < maxCh → s.assigned i ≠ none) →
      assignChannel s = .error .NoAvailableChannel) ∧
    (∀ k, k < maxCh → s.assigned k = some .Closed → (∀ j, j < k → s.assigned j ≠ none) →
      ∃ s2 s3, freeChannel s k = .ok s2 ∧ assignChannel s2 = .ok (k, s3)) := by
  refine ⟨?_, ?_, ?_⟩
  · intro k s2 h
    simp only [assignChannel, hcap] at h
    cases hfind : findVacantFrom s.assigned 0 maxCh with
    | none => simp only [hfind] at h; exact Except.noConfusion h
    | some i =>
      simp only [hfind] at h
      obtain ⟨-, h2, h3, h4⟩ := findVacantFrom_eq_some s.assigned maxCh 0 i hfind
      injection h with h
      injection h with hk hs2
      subst hk
      subst hs2
      exact ⟨by omega, h3, fun j hj => h4 j (by omega) hj, by simp,
        fun j hj => by simp [hj]⟩
  · intro hfull
    simp only [assignChannel, hcap,
      findVacantFrom_eq_none s.assigned maxCh 0 (fun j _ hj => hfull j (by omega))]
  · intro k hk hclosed hbelow
    have hfree : freeChannel s k
        = .ok { s with assigned := fun j => if j = k then none else s.assigned j } := by
      rw [freeChannel, if_pos hclosed]
    refine ⟨{ s with assigned := fun j => if j = k then none else s.assigned j },
      { s with assigned := fun j => if j = k then some ChannelStatus.Assigned
          else if j = k then none else s.assigned j }, hfree, ?_⟩
    simp only [assignChannel, hcap]
    rw [findVacantFrom_first _ maxCh 0 k (by omega) (by omega) (by simp)
      (fun j _ hj2 => by simp [show j ≠ k by omega]; exact hbelow j hj2)]

def c6Example : NodeState :=
  { maxChannels := some 2,
    assigned := fun j => if j = 0 then some .Assigned else if j = 1 then some .Closed else none }

theorem c6_channel_allocation_witness :
    ∃ s2 s3, freeChannel c6Example 1 = .ok s2 ∧ assignChannel s2 = .ok (1, s3) :=
  (c6_channel_allocation c6Example 2 rfl).2.2 1 (by omega) (by simp [c6Example])
    (fun j hj => by have hj0 : j = 0 := by omega
                    subst hj0
                    simp [c6Example])

/-- One `Search::process_data` call (`device.rs`): if the payload carries a
channel id not yet in the `found` set, send it on the output channel and
insert it; otherwise nothing is sent.  The crossbeam sender is modelled by
returning the emitted id; `try_send` succeeds (connected receiver). -/
def searchStep (found : Finset ChannelID) (payload : DataPayload) :
    Finset ChannelID × Option ChannelID :=
  match payload.channel_id with
  | some i => if i ∉ found then (insert i found, some i) else (found, none)
  | none => (found, none)

/-- Feed a list of payloads through the search processor, collecting the
emitted channel ids in order. -/
def searchRun (found : Finset ChannelID) : List DataPayload → Finset ChannelID × List ChannelID
  | [] => (found, [])
  | p :: rest =>
    let step := searchStep found p
    let next := searchRun step.1 rest
    (next.1, step.2.toList ++ next.2)

lemma searchRun_emissions (ps : List DataPayload) :
    ∀ found : Finset ChannelID,
      (∀ c ∈ (searchRun found ps).2, c ∉ found) ∧ ((searchRun found ps).2).Nodup := by
  induction ps with
  | nil => intro found; simp [searchRun]
  | cons p rest ih =>
    intro found
    cases hcid : p.channel_id with
    | none =>
      have hstep : searchStep found p = (found, none) := by simp [searchStep, hcid]
      simpa [searchRun, hstep] using ih found
    | some i =>
      by_cases hmem : i ∈ found
      · have hstep : searchStep found p = (found, none) := by simp [searchStep, hcid, hmem]
        simpa [searchRun, hstep] using ih found
      · have hstep : searchStep found p = (insert i found, some i) := by
          simp [searchStep, hcid, hmem]
        obtain ⟨hsub, hnd⟩ := ih (insert i found)
        refine ⟨?_, ?_⟩
        · intro c hc
          simp only [searchRun, hstep, Option.toList_some, List.cons_append,
            List.nil_append, List.mem_cons] at hc
          rcases hc with hc | hc
          · subst hc; exact hmem
          · exact fun hcf => hsub c hc (Finset.mem_insert_of_mem hcf)
        · simp only [searchRun, hstep, Option.toList_some, List.cons_append, List.nil_append,
            List.nodup_cons]
          exact ⟨fun hin => hsub i hin (Finset.mem_insert_self i _), hnd⟩

/-- C8: the search processor emits each `ChannelID` at most once — starting
from an empty seen-set the emission list never repeats; a payload with a
fresh channel id inserts it and emits it, a payload with an already-seen id
or no id emits nothing; feeding two identical `ChannelID{42,120,5}` payloads
yields exactly one emission. -/
theorem c8_search_dedup :
    (∀ ps : List DataPayload, ((searchRun ∅ ps).2).Nodup) ∧
    (∀ found p, p.channel_id = none → searchStep found p = (found, none)) ∧
    (∀ found p i, p.channel_id = some i → i ∉ found →
      searchStep found p = (insert i found, some i)) ∧
    (∀ found p i, p.channel_id = some i → i ∈ found → searchStep found p = (found, none)) ∧
    (searchRun ∅ [⟨0, none, some ⟨42, 120, 5⟩, none, none⟩,
        ⟨0, none, some ⟨42, 120, 5⟩, none, none⟩]).2 = [⟨42, 120, 5⟩] := by
  refine ⟨fun ps => (searchRun_emissions ps ∅).2, ?_, ?_, ?_, ?_⟩
  · intro found p hcid; simp [searchStep, hcid]
  · intro found p i hcid hmem; simp [searchStep, hcid, hmem]
  · intro found p i hcid hmem; simp [searchStep, hcid, hmem]
  · decide

theorem c8_search_dedup_witness :
    searchStep ∅ ⟨0, none, some ⟨42, 120, 5⟩, none, none⟩
      = (insert ⟨42, 120, 5⟩ ∅, some ⟨42, 120, 5⟩) :=
  c8_search_dedup.2.2.1 ∅ ⟨0, none, some ⟨42, 120, 5⟩, none, none⟩ ⟨42, 120, 5⟩ rfl
    (by decide)

/-- Result of running the publisher loop of `message/reader.rs` over a
sequence of reads: the published messages and the bytes left buffered, a
propagated decode error, a panic, or non-termination (`spin`, reached when a
decode consumes zero bytes and the loop stops advancing). -/
inductive RunRes where
  | ok (msgs : List Message) (pending : List Nat)
  | err (e : Error)
  | panic
  | spin
  deriving DecidableEq, Repr

/-- Modelled from the spec: `Publisher::run` advances `read_index` by
`msg.encoded_len()`, and `encoded_len` is not defined anywhere under the
sources here (only this call site names it).  Spec §4.2 says the parser, on a
successful decode, advances `read_index` by the consumed size — which is the
second component `decode` returned, i.e. the full frame length `LEN + 4`. -/
def publisherAdvance (_m : Message) (len : Nat) : Nat := len

/-- The inner `while read_index + 5 < write_index` loop of `Publisher::run`:
repeatedly decode at the front of the buffered bytes, publish and advance on
success, stop on `InsufficientData`, abort on any other error (and panic if
`decode` panics).  `fuel` bounds the iterations; a run out of fuel (`spin`)
corresponds to the real loop failing to make progress. -/
def drainLoop : Nat → List Nat → RunRes
  | 0, _ => .spin
  | fuel + 1, buf =>
    if buf.length ≤ 5 then .ok [] buf
    else
      match Message.decode buf with
      | .panic => .panic
      | .error .InsufficientData => .ok [] buf
      | .error e => .err e
      | .ok m len =>
        match drainLoop fuel (buf.drop (publisherAdvance m len)) with
        | .ok msgs p => .ok (m :: msgs) p
        | r => r

/-- One iteration of the outer loop of `Publisher::run` after a read: when
bytes arrived, append them to the pending bytes, discard the non-`SYNC`
prefix (the resync loop), and drain complete frames.  The final compaction
(`memmove` to the buffer start) does not change the pending byte list and is
the identity here.  A timeout read (`chunk = []`) does nothing. -/
def processChunk (pending chunk : List Nat) : RunRes :=
  if chunk.isEmpty then .ok [] pending
  else
    let buf := (pending ++ chunk).dropWhile (fun b => b ≠ SYNC)
    drainLoop (buf.length + 1) buf

/-- Sequence two stages of the publisher loop: if the first stage finished
normally, continue from its pending bytes and concatenate the published
messages; otherwise propagate its abnormal result. -/
def runSeq (r : RunRes) (k : List Nat → RunRes) : RunRes :=
  match r with
  | .ok ms p =>
    match k p with
    | .ok ms2 p2 => .ok (ms ++ ms2) p2
    | r2 => r2
  | r => r

/-- Run `Publisher::run` over a whole sequence of reads, starting from the
given pending bytes, collecting the published messages in order. -/
def runPub (pending : List Nat) : List (List Nat) → RunRes
  | [] => .ok [] pending
  | c :: cs => runSeq (processChunk pending c) (fun q => runPub q cs)

/-- A well-formed on-wire frame `g` carrying message `m`: at least 4 bytes,
starting with `SYNC`, whose LEN byte matches the frame length, and which
`Message::decode` accepts — consuming exactly `g.length` bytes — no matter
what bytes follow it in the buffer. -/
structure GoodFrame (m : Message) (g : List Nat) : Prop where
  minLen : 4 ≤ g.length
  sync : g.get? 0 = some SYNC
  lenByte : ∃ d, g.get? 1 = some d ∧ (d + 4) % 256 = g.length
  dec : ∀ r, Message.decode (g ++ r) = .ok m g.length

/-- Decoding a strict prefix (of at least 4 bytes) of a good frame reports
`InsufficientData`. -/
lemma goodFrame_decode_take (m : Message) (g : List Nat) (hg : GoodFrame m g) (t : Nat)
    (h4 : 4 ≤ t) (hlt : t < g.length) :
    Message.decode (g.take t) = .error .InsufficientData := by
  obtain ⟨d, hd, hdl⟩ := hg.lenByte
  have hlen : (g.take t).length = t := by rw [List.length_take]; omega
  have h0 : (g.take t).getD 0 0 = SYNC := by
    rw [List.getD_eq_getD_get?, List.get?_take (by omega), hg.sync]
    rfl
  have h1 : (g.take t).getD 1 0 = d := by
    rw [List.getD_eq_getD_get?, List.get?_take (by omega), hd]
    rfl
  simp only [Message.decode]
  rw [if_neg (show ¬(g.take t).length < 4 by omega)]
  rw [if_neg (show ¬(g.take t).getD 0 0 ≠ SYNC from fun hc => hc h0)]
  rw [if_pos (show (g.take t).length < ((g.take t).getD 1 0 + 4) % 256 by
    rw [hlen, h1, hdl]; exact hlt)]

/-- The frames of a stream, with their messages. -/
def joinFrames (ps : List (Message × List Nat)) : List Nat :=
  (ps.map Prod.snd).flatten

/-- How many leading frames the drain loop publishes once `t` bytes of the
stream have been delivered: a frame drains when its whole frame plus the
6-byte look-ahead condition (`read_index + 5 < write_index` at its start) is
within the delivered bytes. -/
def specDrain : List (Message × List Nat) → Nat → Nat
  | [], _ => 0
  | (_, g) :: rest, t => if max g.length 6 ≤ t then specDrain rest (t - g.length) + 1 else 0

/-- The number of bytes consumed by the frames `specDrain` publishes. -/
def consumedLen : List (Message × List Nat) → Nat → Nat
  | [], _ => 0
  | (_, g) :: rest, t =>
    if max g.length 6 ≤ t then g.length + consumedLen rest (t - g.length) else 0

lemma consumedLen_le (ps : List (Message × List Nat)) : ∀ t, consumedLen ps t ≤ t := by
  induction ps with
  | nil => intro t; simp [consumedLen]
  | cons hd rest ih =>
    obtain ⟨_, g⟩ := hd
    intro t
    rw [consumedLen]
    by_cases hc : max g.length 6 ≤ t
    · rw [if_pos hc]
      have := ih (t - g.length)
      omega
    · rw [if_neg hc]
      omega

lemma joinFrames_drop (ps : List (Message × List Nat)) :
    ∀ t, joinFrames (ps.drop (specDrain ps t)) = (joinFrames ps).drop (consumedLen ps t) := by
  induction ps with
  | nil => intro t; simp [joinFrames, specDrain, consumedLen]
  | cons hd rest ih =>
    obtain ⟨m, g⟩ := hd
    intro t
    have hjoin : joinFrames ((m, g) :: rest) = g ++ joinFrames rest := by
      simp [joinFrames]
    by_cases hc : max g.length 6 ≤ t
    · have e1 : specDrain ((m, g) :: rest) t = specDrain rest (t - g.length) + 1 := by
        rw [specDrain, if_pos hc]
      have e2 : consumedLen ((m, g) :: rest) t
          = g.length + consumedLen rest (t - g.length) := by
        rw [consumedLen, if_pos hc]
      rw [e1, e2, List.drop_succ_cons, ih (t - g.length), hjoin, ← List.drop_drop,
        List.drop_left]
    · have e1 : specDrain ((m, g) :: rest) t = 0 := by rw [specDrain, if_neg hc]
      have e2 : consumedLen ((m, g) :: rest) t = 0 := by rw [consumedLen, if_neg hc]
      rw [e1, e2]
      simp

lemma specDrain_compose (ps : List (Message × List Nat)) :
    ∀ t u, t ≤ u →
      specDrain ps u
          = specDrain ps t + specDrain (ps.drop (specDrain ps t)) (u - consumedLen ps t) ∧
      consumedLen ps u
          = consumedLen ps t + consumedLen (ps.drop (specDrain ps t)) (u - consumedLen ps t) := by
  induction ps with
  | nil => intro t u _; simp [specDrain, consumedLen]
  | cons hd rest ih =>
    obtain ⟨m, g⟩ := hd
    intro t u htu
    by_cases hc : max g.length 6 ≤ t
    · have hcu : max g.length 6 ≤ u := le_trans hc htu
      have hrec := ih (t - g.length) (u - g.length) (by omega)
      have hCle := consumedLen_le rest (t - g.length)
      have e1 : specDrain ((m, g) :: rest) t = specDrain rest (t - g.length) + 1 := by
        rw [specDrain, if_pos hc]
      have e2 : consumedLen ((m, g) :: rest) t
          = g.length + consumedLen rest (t - g.length) := by
        rw [consumedLen, if_pos hc]
      have e3 : specDrain ((m, g) :: rest) u = specDrain rest (u - g.length) + 1 := by
        rw [specDrain, if_pos hcu]
      have e4 : consumedLen ((m, g) :: rest) u
          = g.length + consumedLen rest (u - g.length) := by
        rw [consumedLen, if_pos hcu]
      rw [e1, e2, e3, e4, List.drop_succ_cons]
      have hsub : u - (g.length + consumedLen rest (t - g.length))
          = u - g.length - consumedLen rest (t - g.length) := by omega
      constructor
      · rw [hrec.1, hsub]
        omega
      · rw [hrec.2, hsub]
        omega
    · have e1 : specDrain ((m, g) :: rest) t = 0 := by rw [specDrain, if_neg hc]
      have e2 : consumedLen ((m, g) :: rest) t = 0 := by rw [consumedLen, if_neg hc]
      rw [e1, e2]
      simp

/-- The drain loop on the first `t` delivered bytes of a stream of good
frames publishes exactly the `specDrain` leading frames and keeps the rest
buffered. -/
lemma drainLoop_spec (ps : List (Message × List Nat)) :
    ∀ t fuel, (∀ p ∈ ps, GoodFrame p.1 p.2) → t ≤ (joinFrames ps).length → t + 1 ≤ fuel →
      drainLoop fuel ((joinFrames ps).take t)
        = .ok ((ps.take (specDrain ps t)).map Prod.fst)
            (((joinFrames ps).take t).drop (consumedLen ps t)) := by
  induction ps with
  | nil =>
    intro t fuel _ ht hfuel
    cases fuel with
    | zero => omega
    | succ fuel => simp [joinFrames, drainLoop, specDrain, consumedLen]
  | cons hd rest ih =>
    obtain ⟨m, g⟩ := hd
    intro t fuel hps ht hfuel
    have hg : GoodFrame m g := hps (m, g) (by simp)
    have hrest : ∀ p ∈ rest, GoodFrame p.1 p.2 := fun p hp => hps p (List.mem_cons_of_mem _ hp)
    have hjoin : joinFrames ((m, g) :: rest) = g ++ joinFrames rest := by simp [joinFrames]
    have hjlen : (joinFrames ((m, g) :: rest)).length
        = g.length + (joinFrames rest).length := by
      rw [hjoin, List.length_append]
    cases fuel with
    | zero => omega
    | succ fuel =>
      rw [drainLoop]
      have hblen : ((joinFrames ((m, g) :: rest)).take t).length = t := by
        rw [List.length_take]
        omega
      by_cases h5 : t ≤ 5
      · rw [if_pos (by omega)]
        have hnc : ¬max g.length 6 ≤ t := by
          have h6 := Nat.le_max_right g.length 6
          omega
        have e1 : specDrain ((m, g) :: rest) t = 0 := by rw [specDrain, if_neg hnc]
        have e2 : consumedLen ((m, g) :: rest) t = 0 := by rw [consumedLen, if_neg hnc]
        rw [e1, e2]
        simp
      · rw [if_neg (by omega)]
        by_cases hcase : t < g.length
        · have hbuf : (joinFrames ((m, g) :: rest)).take t = g.take t := by
            rw [hjoin, List.take_append_eq_append_take, show t - g.length = 0 by omega]
            simp
          have hnc : ¬max g.length 6 ≤ t := by
            have h6 := Nat.le_max_left g.length 6
            omega
          have e1 : specDrain ((m, g) :: rest) t = 0 := by rw [specDrain, if_neg hnc]
          have e2 : consumedLen ((m, g) :: rest) t = 0 := by rw [consumedLen, if_neg hnc]
          rw [hbuf, goodFrame_decode_take m g hg t (by omega) hcase, e1, e2]
          simp [hbuf]
        · push_neg at hcase
          have hbuf : (joinFrames ((m, g) :: rest)).take t
              = g ++ (joinFrames rest).take (t - g.length) := by
            rw [hjoin, List.take_append_eq_append_take, List.take_of_length_le hcase]
          have hdrop : (g ++ (joinFrames rest).take (t - g.length)).drop
              (publisherAdvance m g.length) = (joinFrames rest).take (t - g.length) :=
            List.drop_left g _
          have hgmin := hg.minLen
          have ht2 : t ≤ g.length + (joinFrames rest).length := by omega
          have hih := ih (t - g.length) fuel hrest (by omega) (by omega)
          have hcond : max g.length 6 ≤ t := Nat.max_le.mpr ⟨hcase, by omega⟩
          have e1 : specDrain ((m, g) :: rest) t = specDrain rest (t - g.length) + 1 := by
            rw [specDrain, if_pos hcond]
          have e2 : consumedLen ((m, g) :: rest) t
              = g.length + consumedLen rest (t - g.length) := by
            rw [consumedLen, if_pos hcond]
          have hdrop2 : (g ++ (joinFrames rest).take (t - g.length)).drop
              (g.length + consumedLen rest (t - g.length))
              = ((joinFrames rest).take (t - g.length)).drop
                  (consumedLen rest (t - g.length)) := by
            rw [← List.drop_drop, List.drop_left]
          simp only [hbuf, hg.dec, hdrop, hih, e1, e2, hdrop2, List.take_succ_cons,
            List.map_cons]

lemma runSeq_assoc (r : RunRes) (k1 k2 : List Nat → RunRes) :
    runSeq (runSeq r k1) k2 = runSeq r (fun p => runSeq (k1 p) k2) := by
  cases r with
  | ok ms p =>
    cases hk : k1 p with
    | ok ms2 p2 =>
      cases hk2 : k2 p2 with
      | ok ms3 p3 => simp [runSeq, hk, hk2, List.append_assoc]
      | err e => simp [runSeq, hk, hk2]
      | panic => simp [runSeq, hk, hk2]
      | spin => simp [runSeq, hk, hk2]
    | err e => simp [runSeq, hk]
    | panic => simp [runSeq, hk]
    | spin => simp [runSeq, hk]
  | err e => rfl
  | panic => rfl
  | spin => rfl

lemma runPub_snoc (p : List Nat) (cs : List (List Nat)) (c : List Nat) :
    runPub p (cs ++ [c]) = runSeq (runPub p cs) (fun q => processChunk q c) := by
  induction cs generalizing p with
  | nil =>
    show runSeq (processChunk p c) (fun q => runPub q []) = _
    cases hpc : processChunk p c with
    | ok ms2 r2 => simp [runSeq, runPub, hpc]
    | err e => simp [runSeq, runPub, hpc]
    | panic => simp [runSeq, runPub, hpc]
    | spin => simp [runSeq, runPub, hpc]
  | cons c0 cs ih =>
    show runSeq (processChunk p c0) (fun q => runPub q (cs ++ [c])) = _
    have hfun : (fun q => runPub q (cs ++ [c]))
        = fun q => runSeq (runPub q cs) (fun q2 => processChunk q2 c) :=
      funext fun q => ih q
    rw [hfun, ← runSeq_assoc]
    rfl

lemma runSeq_ok_ok (ms : List Message) (p : List Nat) (k : List Nat → RunRes)
    (ms2 : List Message) (p2 : List Nat) (h : k p = .ok ms2 p2) :
    runSeq (.ok ms p) k = .ok (ms ++ ms2) p2 := by
  simp [runSeq, h]

lemma specDrain_zero (ps : List (Message × List Nat)) :
    specDrain ps 0 = 0 ∧ consumedLen ps 0 = 0 := by
  cases ps with
  | nil => simp [specDrain, consumedLen]
  | cons hd rest =>
    obtain ⟨m, g⟩ := hd
    have hnc : ¬max g.length 6 ≤ 0 := by
      have h6 := Nat.le_max_right g.length 6
      omega
    rw [specDrain, consumedLen, if_neg hnc, if_neg hnc]
    exact ⟨rfl, rfl⟩

/-- Running the publisher over any chunking of the first `u` bytes of a
stream of good frames publishes the `specDrain` leading frames, in order,
and keeps the remaining bytes buffered. -/
lemma runPub_prefix (ps : List (Message × List Nat)) (hps : ∀ p ∈ ps, GoodFrame p.1 p.2) :
    ∀ chunks u, u ≤ (joinFrames ps).length → chunks.flatten = (joinFrames ps).take u →
      runPub [] chunks
        = .ok ((ps.take (specDrain ps u)).map Prod.fst)
            (((joinFrames ps).take u).drop (consumedLen ps u)) := by
  intro chunks
  induction chunks using List.reverseRecOn with
  | nil =>
    intro u hu hj
    have hS : (joinFrames ps).take u = [] := hj.symm
    have hmin : min u (joinFrames ps).length = 0 := by
      have h := congrArg List.length hS
      rwa [List.length_take, List.length_nil] at h
    have hu0 : u = 0 := by
      rcases Nat.min_eq_zero_iff.mp hmin with h | h
      · exact h
      · omega
    subst hu0
    rw [(specDrain_zero ps).1, (specDrain_zero ps).2]
    simp [runPub]
  | append_singleton cs c ih =>
    intro u hu hj
    have hj2 : cs.flatten ++ c = (joinFrames ps).take u := by
      rw [← hj]
      simp
    have hulen : cs.flatten.length + c.length = u := by
      have h := congrArg List.length hj2
      rw [List.length_append, List.length_take] at h
      omega
    have hu1 : cs.flatten.length ≤ u := by omega
    have hcs : cs.flatten = (joinFrames ps).take cs.flatten.length := by
      have h : cs.flatten = ((joinFrames ps).take u).take cs.flatten.length := by
        rw [← hj2, List.take_left]
      conv_lhs => rw [h]
      rw [List.take_take, min_eq_left hu1]
    have ih1 := ih cs.flatten.length (by omega) hcs
    rw [runPub_snoc, ih1]
    by_cases hc : c = []
    · subst hc
      have hu0 : u = cs.flatten.length := by
        simp only [List.length_nil] at hulen
        omega
      subst hu0
      simp [runSeq, processChunk]
    · -- the new chunk holds the bytes of the stream between positions
      -- cs.flatten.length and u
      have hc1le : consumedLen ps cs.flatten.length ≤ cs.flatten.length :=
        consumedLen_le ps _
      have hsplit : (joinFrames ps).take u
          = (joinFrames ps).take cs.flatten.length ++ c := by
        rw [← hj2]
        conv_lhs => rw [hcs]
      have htklen : ((joinFrames ps).take cs.flatten.length).length
          = cs.flatten.length := by
        rw [List.length_take]
        omega
      have hpend : (((joinFrames ps).take cs.flatten.length).drop
            (consumedLen ps cs.flatten.length)) ++ c
          = ((joinFrames ps).take u).drop (consumedLen ps cs.flatten.length) := by
        rw [hsplit, List.drop_append_eq_append_drop,
          show consumedLen ps cs.flatten.length
              - ((joinFrames ps).take cs.flatten.length).length = 0 by omega,
          List.drop_zero]
      have hjf : joinFrames (ps.drop (specDrain ps cs.flatten.length))
          = (joinFrames ps).drop (consumedLen ps cs.flatten.length) :=
        joinFrames_drop ps cs.flatten.length
      have hB : (((joinFrames ps).take cs.flatten.length).drop
            (consumedLen ps cs.flatten.length)) ++ c
          = (joinFrames (ps.drop (specDrain ps cs.flatten.length))).take
              (u - consumedLen ps cs.flatten.length) := by
        rw [hpend, hjf, List.drop_take]
      have hps2 : ∀ p ∈ ps.drop (specDrain ps cs.flatten.length), GoodFrame p.1 p.2 :=
        fun p hp => hps p (List.mem_of_mem_drop hp)
      have hlenB : ((((joinFrames ps).take cs.flatten.length).drop
            (consumedLen ps cs.flatten.length)) ++ c).length
          = u - consumedLen ps cs.flatten.length := by
        rw [hB, List.length_take, hjf, List.length_drop]
        omega
      have hBne : (((joinFrames ps).take cs.flatten.length).drop
            (consumedLen ps cs.flatten.length)) ++ c ≠ [] := by
        simp [hc]
      -- the buffer starts at a frame boundary, hence with a SYNC byte
      have hhead : ((((joinFrames ps).take cs.flatten.length).drop
            (consumedLen ps cs.flatten.length)) ++ c).get? 0 = some SYNC := by
        rw [hB]
        cases hps3 : ps.drop (specDrain ps cs.flatten.length) with
        | nil =>
          exfalso
          apply hBne
          rw [hB, hps3]
          simp [joinFrames]
        | cons q qs =>
          obtain ⟨m1, g1⟩ := q
          have hg1 : GoodFrame m1 g1 := by
            have := hps2 (m1, g1) (by rw [hps3]; simp)
            exact this
          have hg1len := hg1.minLen
          have ht1 : 0 < u - consumedLen ps cs.flatten.length := by
            by_contra h0
            apply hBne
            have : u - consumedLen ps cs.flatten.length = 0 := by omega
            rw [hB, this, List.take_zero]
          have hjq : joinFrames ((m1, g1) :: qs) = g1 ++ joinFrames qs := by
            simp [joinFrames]
          rw [List.get?_take ht1, hjq, List.get?_append (by omega), hg1.sync]
      have hdw : ((((joinFrames ps).take cs.flatten.length).drop
            (consumedLen ps cs.flatten.length)) ++ c).dropWhile (fun b => b ≠ SYNC)
          = (((joinFrames ps).take cs.flatten.length).drop
            (consumedLen ps cs.flatten.length)) ++ c := by
        cases hB2 : (((joinFrames ps).take cs.flatten.length).drop
            (consumedLen ps cs.flatten.length)) ++ c with
        | nil => rfl
        | cons b bs =>
          have hb : b = SYNC := by
            have := hhead
            rw [hB2] at this
            simpa using this
          subst hb
          simp [List.dropWhile_cons]
      have hdrain := drainLoop_spec (ps.drop (specDrain ps cs.flatten.length))
        (u - consumedLen ps cs.flatten.length)
        ((u - consumedLen ps cs.flatten.length) + 1) hps2
        (by rw [hjf, List.length_drop]; omega) (le_refl _)
      obtain ⟨hk, hcns⟩ := specDrain_compose ps cs.flatten.length u hu1
      have hpc : processChunk
          (((joinFrames ps).take cs.flatten.length).drop
            (consumedLen ps cs.flatten.length)) c
          = .ok (((ps.drop (specDrain ps cs.flatten.length)).take
                (specDrain (ps.drop (specDrain ps cs.flatten.length))
                  (u - consumedLen ps cs.flatten.length))).map Prod.fst)
              (((joinFrames (ps.drop (specDrain ps cs.flatten.length))).take
                  (u - consumedLen ps cs.flatten.length)).drop
                (consumedLen (ps.drop (specDrain ps cs.flatten.length))
                  (u - consumedLen ps cs.flatten.length))) := by
        simp only [processChunk, if_neg (show ¬c.isEmpty = true by simp [hc])]
        rw [hdw, hlenB, hB, hdrain]
      have hconv : ((joinFrames ps).take u).drop (consumedLen ps cs.flatten.length)
          = (joinFrames (ps.drop (specDrain ps cs.flatten.length))).take
              (u - consumedLen ps cs.flatten.length) :=
        hpend.symm.trans hB
      rw [runSeq_ok_ok _ _ (fun q => processChunk q c) _ _ hpc, hk, hcns, List.take_add,
        List.map_append, ← List.drop_drop, hconv]

/-- C3 (amended): delivering any chunking of a concatenation of well-formed
frames publishes — in stream order, identically to a single-read delivery —
exactly the leading frames whose bytes plus the 6-byte look-ahead of the
drain condition (`read_index + 5 < write_index`) have arrived; the remaining
bytes (an incomplete trailing frame, or a trailing complete frame shorter
than 6 bytes) stay buffered, so nothing is lost. -/
theorem c3_publisher_chunking (ps : List (Message × List Nat))
    (hps : ∀ p ∈ ps, GoodFrame p.1 p.2) (chunks : List (List Nat))
    (hsplit : chunks.flatten = joinFrames ps) :
    runPub [] chunks
      = .ok ((ps.take (specDrain ps (joinFrames ps).length)).map Prod.fst)
          ((joinFrames ps).drop (consumedLen ps (joinFrames ps).length)) ∧
    runPub [] chunks = runPub [] [joinFrames ps] := by
  have h1 := runPub_prefix ps hps chunks (joinFrames ps).length (le_refl _)
    (by rw [hsplit, List.take_length])
  have h2 := runPub_prefix ps hps [joinFrames ps] (joinFrames ps).length (le_refl _)
    (by simp)
  rw [List.take_length] at h1 h2
  exact ⟨h1, h1.trans h2.symm⟩

lemma goodFrame_setNetworkKey :
    GoodFrame (.SetNetworkKey ⟨0, ⟨9, 8, 7, 6, 5, 4, 3, 2⟩⟩)
      [0xa4, 9, 0x46, 0, 9, 8, 7, 6, 5, 4, 3, 2, 235] := by
  refine ⟨by decide, by decide, ⟨9, by decide, by decide⟩, ?_⟩
  intro r
  exact (decode_eq_arms ([0xa4, 9, 0x46, 0, 9, 8, 7, 6, 5, 4, 3, 2, 235] ++ r) .SetNetworkKey
    (by simp only [List.length_append, List.length_cons, List.length_nil]; omega)
    (by rfl)
    (by have hml : (([0xa4, 9, 0x46, 0, 9, 8, 7, 6, 5, 4, 3, 2, 235] ++ r).getD 1 0 + 4) % 256
          = 13 := by rfl
        rw [hml]
        simp only [List.length_append, List.length_cons, List.length_nil]
        omega)
    (by rfl)
    (by have ht : List.take ((([0xa4, 9, 0x46, 0, 9, 8, 7, 6, 5, 4, 3, 2, 235] ++ r).getD 1 0
              + 4) % 256) ([0xa4, 9, 0x46, 0, 9, 8, 7, 6, 5, 4, 3, 2, 235] ++ r)
          = [0xa4, 9, 0x46, 0, 9, 8, 7, 6, 5, 4, 3, 2, 235] := by rfl
        rw [ht]
        decide)).trans (by rfl)

lemma goodFrame_openChannel :
    GoodFrame (.OpenChannel ⟨2⟩) [0xa4, 1, 0x4b, 2, 0xec] := by
  refine ⟨by decide, by decide, ⟨1, by decide, by decide⟩, ?_⟩
  intro r
  exact (decode_eq_arms ([0xa4, 1, 0x4b, 2, 0xec] ++ r) .OpenChannel
    (by simp only [List.length_append, List.length_cons, List.length_nil]; omega)
    (by rfl)
    (by have hml : (([0xa4, 1, 0x4b, 2, 0xec] ++ r).getD 1 0 + 4) % 256 = 5 := by rfl
        rw [hml]
        simp only [List.length_append, List.length_cons, List.length_nil]
        omega)
    (by rfl)
    (by have ht : List.take ((([0xa4, 1, 0x4b, 2, 0xec] ++ r).getD 1 0 + 4) % 256)
          ([0xa4, 1, 0x4b, 2, 0xec] ++ r) = [0xa4, 1, 0x4b, 2, 0xec] := by rfl
        rw [ht]
        decide)).trans (by rfl)

def c3Frames : List (Message × List Nat) :=
  [(.SetNetworkKey ⟨0, ⟨9, 8, 7, 6, 5, 4, 3, 2⟩⟩,
    [0xa4, 9, 0x46, 0, 9, 8, 7, 6, 5, 4, 3, 2, 235]),
   (.OpenChannel ⟨2⟩, [0xa4, 1, 0x4b, 2, 0xec])]

theorem c3_publisher_chunking_witness :
    runPub [] [[0xa4, 9, 0x46, 0, 9, 8], [7, 6, 5, 4, 3, 2, 235, 0xa4, 1], [0x4b, 2, 0xec]]
      = .ok [.SetNetworkKey ⟨0, ⟨9, 8, 7, 6, 5, 4, 3, 2⟩⟩] [0xa4, 1, 0x4b, 2, 0xec] ∧
    runPub [] [[0xa4, 9, 0x46, 0, 9, 8], [7, 6, 5, 4, 3, 2, 235, 0xa4, 1], [0x4b, 2, 0xec]]
      = runPub [] [joinFrames c3Frames] := by
  have h := c3_publisher_chunking c3Frames
    (by intro p hp
        simp only [c3Frames, List.mem_cons, List.not_mem_nil, or_false] at hp
        rcases hp with h | h
        · rw [h]; exact goodFrame_setNetworkKey
        · rw [h]; exact goodFrame_openChannel)
    [[0xa4, 9, 0x46, 0, 9, 8], [7, 6, 5, 4, 3, 2, 235, 0xa4, 1], [0x4b, 2, 0xec]]
    (by decide)
  obtain ⟨h1, h2⟩ := h
  refine ⟨?_, h2⟩
  rw [h1]
  decide

/-- C3 counterexample: a complete, valid 5-byte `OpenChannel` frame delivered
whole (followed by further timeout reads) is never published — the drain loop
only runs while more than 5 bytes are buffered — refuting the claim that
every complete frame present in the buffer is eventually published. -/
theorem c3_publisher_chunking_cex :
    Message.decode [0xa4, 1, 0x4b, 2, 0xec] = .ok (.OpenChannel ⟨2⟩) 5 ∧
    runPub [] [[0xa4, 1, 0x4b, 2, 0xec], [], []] = .ok [] [0xa4, 1, 0x4b, 2, 0xec] := by
  refine ⟨by decide, by decide⟩

end Antrs
